import Mathlib

/-!
Verification of the workflow core of the `cementerio` municipal
cemetery-administration application (`app/cemetery/services.py`,
`app/core/models.py`).

Shallow embedding conventions:

* The database is modelled as an in-memory `DBState` holding the rows of the
  tables the workflow core touches.  All service queries are scoped to the
  active organization (`org_id()`); the embedding models the slice of the
  database belonging to one organization, so the `org_id` columns and filters
  (which are identities on that slice) are omitted.
* `ValueError` is modelled as `Except.error` with the source's message; a
  Python function that commits its mutations is modelled as a function
  returning the new `DBState` (an `Except.error` result models the raised
  exception with the transaction rolled back, leaving the state unchanged).
* `datetime.date` is modelled as a year/month/day triple with lexicographic
  order; `date.today()` / `datetime.now()` is passed in as an explicit
  `today` argument.
* `Decimal` money amounts (always quantized to two decimal places in the
  source) are modelled as integer euro-cents; percentages (`Numeric(5, 2)`)
  as integer hundredths of a percent.  `Decimal.quantize`'s default
  ROUND_HALF_EVEN is modelled by `roundHalfToEven`.
* HTTP form payloads (`dict[str, str]`) are modelled as structures; a field
  the source parses with `_parse_iso_date` / `_parse_optional_iso_date` or an
  `isdigit()` check is carried as an already-parsed `Option` value (a `none`
  models a missing or unparseable field), while fields the source matches
  textually (enum names, channels) stay `String`s.
* Row ids are allocated from a single `next_id` counter (the per-table
  autoincrement sequences of the database are collapsed into one counter,
  which keeps ids unique exactly as the database does).
* Audit rows (`MovimientoSepultura`, `ContractEvent`) are modelled with the
  columns the specification's claims mention (target id and event type); the
  free-text detail strings and acting-user columns are dropped.
-/

namespace Cementerio

/-- `datetime.date`: a calendar date, ordered lexicographically. -/
structure Date where
  year : Int
  month : Int
  day : Int
deriving DecidableEq, Repr

/-- `a <= b` on dates (lexicographic on year, month, day). -/
def Date.le (a b : Date) : Bool :=
  decide (a.year < b.year) ||
    (decide (a.year = b.year) &&
      (decide (a.month < b.month) ||
        (decide (a.month = b.month) && decide (a.day ≤ b.day))))

/-- `a < b` on dates (lexicographic). -/
def Date.lt (a b : Date) : Bool :=
  decide (a.year < b.year) ||
    (decide (a.year = b.year) &&
      (decide (a.month < b.month) ||
        (decide (a.month = b.month) && decide (a.day < b.day))))

theorem Date.le_total (a b : Date) : Date.le a b = true ∨ Date.le b a = true := by
  cases a; cases b
  simp only [Date.le, Bool.or_eq_true, Bool.and_eq_true, decide_eq_true_eq]
  omega

theorem Date.not_le_of_lt {a b : Date} (h : Date.lt a b = true) : Date.le b a = false := by
  cases a; cases b
  simp only [Date.lt, Date.le, Bool.or_eq_true, Bool.and_eq_true, decide_eq_true_eq] at h
  simp only [Date.le, Bool.or_eq_false_iff, Bool.and_eq_false_iff,
    decide_eq_false_iff_not, not_lt, not_le]
  omega

/-- `Decimal.quantize(Decimal("0.01"))` with the default ROUND_HALF_EVEN,
on a scaled-integer value `num / den` (`den > 0`): round to the nearest
integer, ties to the even neighbour. -/
def roundHalfToEven (num den : Int) : Int :=
  let q := num / den
  let r := num % den
  if 2 * r < den then q
  else if 2 * r > den then q + 1
  else if q % 2 = 0 then q else q + 1

/-- `services._apply_discount`: `(amount * (100 - pct) / 100).quantize(0.01)`.
`amount` is in cents, `pct` in hundredths of a percent. -/
def apply_discount (amount pct : Int) : Int :=
  roundHalfToEven (amount * (10000 - pct)) 10000

/-! ## Enumerations (`app/core/models.py`) -/

/-- `models.SepulturaEstado`. -/
inductive SepulturaEstado where
  | LLIURE | DISPONIBLE | OCUPADA | INACTIVA | PROPIA
deriving DecidableEq, Repr

/-- `models.DerechoTipo`. -/
inductive DerechoTipo where
  | CONCESION | USO_INMEDIATO
deriving DecidableEq, Repr

/-- `models.TicketEstado`. -/
inductive TicketEstado where
  | PENDIENTE | FACTURADO | COBRADO
deriving DecidableEq, Repr

/-- `models.TicketDescuentoTipo`. -/
inductive TicketDescuentoTipo where
  | NONE | PENSIONISTA
deriving DecidableEq, Repr

/-- `models.MovimientoTipo` (the members the workflow core writes). -/
inductive MovimientoTipo where
  | INHUMACION | EXHUMACION | TASAS | LAPIDA | CAMBIO_ESTADO | CONTRATO
  | INSCRIPCION_LATERAL | INICIO_TRANSMISION | DOCUMENTO_SUBIDO | APROBACION
  | RECHAZO | CAMBIO_TITULARIDAD | BENEFICIARIO
deriving DecidableEq, Repr

/-- `models.InvoiceEstado`. -/
inductive InvoiceEstado where
  | BORRADOR | EMITIDA | IMPAGADA | PAGADA
deriving DecidableEq, Repr

/-- `models.OwnershipTransferType`.  The `MORTIS_CAUSA_CON_BENEFICIARIO`
member is declared in `app/core/models.py` of the repository (the staged
copy of that file predates it; migration
`8b4c0d9e1f2a_expediente_declarante_and_transfer_type.py` adds the value to
the database enum and `services.py` and the test suite reference the
member). -/
inductive OwnershipTransferType where
  | MORTIS_CAUSA_TESTAMENTO | MORTIS_CAUSA_SIN_TESTAMENTO
  | MORTIS_CAUSA_CON_BENEFICIARIO | INTER_VIVOS | PROVISIONAL
deriving DecidableEq, Repr

/-- `models.OwnershipTransferStatus`. -/
inductive OwnershipTransferStatus where
  | DRAFT | DOCS_PENDING | UNDER_REVIEW | APPROVED | REJECTED | CLOSED
deriving DecidableEq, Repr

/-- `models.OwnershipPartyRole`. -/
inductive OwnershipPartyRole where
  | CAUSANT | ANTERIOR_TITULAR | NUEVO_TITULAR | REPRESENTANTE | OTRO
deriving DecidableEq, Repr

/-- `models.CaseDocumentStatus`. -/
inductive CaseDocumentStatus where
  | MISSING | PROVIDED | VERIFIED | REJECTED
deriving DecidableEq, Repr

/-- `models.BeneficiaryCloseDecision`. -/
inductive BeneficiaryCloseDecision where
  | KEEP | REPLACE
deriving DecidableEq, Repr

/-! ## Table rows (`app/core/models.py`) -/

/-- `models.Person` (the columns the workflow core reads). -/
structure Person where
  id : Nat
  first_name : String
  last_name : String
  dni_nif : Option String
deriving DecidableEq, Repr

/-- `models.Sepultura` (the columns the workflow core reads). -/
structure Sepultura where
  id : Nat
  estado : SepulturaEstado
deriving DecidableEq, Repr

/-- `models.DerechoFunerarioContrato` columns. -/
structure DerechoFunerarioContrato where
  id : Nat
  sepultura_id : Nat
  tipo : DerechoTipo
  fecha_inicio : Date
  fecha_fin : Date
  legacy_99_years : Bool
  annual_fee_amount : Int
  estado : String
deriving DecidableEq, Repr

/-- `models.OwnershipRecord` columns. -/
structure OwnershipRecord where
  id : Nat
  contract_id : Nat
  person_id : Nat
  start_date : Date
  end_date : Option Date
  is_pensioner : Bool
  pensioner_since_date : Option Date
  is_provisional : Bool
  provisional_until : Option Date
deriving DecidableEq, Repr

/-- `models.Beneficiario` columns. -/
structure Beneficiario where
  id : Nat
  contrato_id : Nat
  person_id : Nat
  activo_desde : Date
  activo_hasta : Option Date
deriving DecidableEq, Repr

/-- `models.CaseDocument` (per-case checklist row). -/
structure CaseDocument where
  doc_type : String
  required : Bool
  status : CaseDocumentStatus
deriving DecidableEq, Repr

/-- `models.OwnershipTransferParty` (per-case party row). -/
structure OwnershipTransferParty where
  role : OwnershipPartyRole
  person_id : Nat
deriving DecidableEq, Repr

/-- `models.Publication` (per-case publication row). -/
structure Publication where
  published_at : Date
  channel : String
deriving DecidableEq, Repr

/-- `models.OwnershipTransferCase` with its `documents`, `parties` and
`publications` relationship collections inlined. -/
structure OwnershipTransferCase where
  id : Nat
  contract_id : Nat
  type : OwnershipTransferType
  status : OwnershipTransferStatus
  documents : List CaseDocument
  parties : List OwnershipTransferParty
  publications : List Publication
  rejection_reason : Option String
  resolution_number : Option String
  resolution_pdf_path : Option String
  beneficiary_close_decision : Option BeneficiaryCloseDecision
  provisional_until : Option Date
  closed_at : Option Date
deriving DecidableEq, Repr

/-- `models.TasaMantenimientoTicket` columns. -/
structure TasaMantenimientoTicket where
  id : Nat
  contrato_id : Nat
  invoice_id : Option Nat
  anio : Int
  importe : Int
  descuento_tipo : TicketDescuentoTipo
  estado : TicketEstado
deriving DecidableEq, Repr

/-- `models.Invoice` columns. -/
structure Invoice where
  id : Nat
  contrato_id : Nat
  sepultura_id : Nat
  numero : String
  estado : InvoiceEstado
  total_amount : Int
deriving DecidableEq, Repr

/-- `models.Payment` columns. -/
structure Payment where
  invoice_id : Nat
  amount : Int
  method : String
  receipt_number : String
deriving DecidableEq, Repr

/-- `models.ContractEvent` (contract audit trail; target ids and type). -/
structure ContractEvent where
  contract_id : Nat
  case_id : Option Nat
  event_type : String
deriving DecidableEq, Repr

/-- `models.MovimientoSepultura` (grave audit trail; target id and type). -/
structure MovimientoSepultura where
  sepultura_id : Nat
  tipo : MovimientoTipo
deriving DecidableEq, Repr

/-- `services.TicketGenerationResult`. -/
structure TicketGenerationResult where
  created : Nat
  existing : Nat
  skipped_non_concession : Nat
deriving DecidableEq, Repr

/-- The one-organization slice of the database that the workflow core
touches, plus the organization's pensioner-discount setting
(`Organization.pensionista_discount_pct`) and the id allocator. -/
structure DBState where
  sepulturas : List Sepultura
  persons : List Person
  contratos : List DerechoFunerarioContrato
  ownership_records : List OwnershipRecord
  beneficiarios : List Beneficiario
  cases : List OwnershipTransferCase
  tickets : List TasaMantenimientoTicket
  invoices : List Invoice
  payments : List Payment
  contract_events : List ContractEvent
  movimientos : List MovimientoSepultura
  pensionista_discount_pct : Int
  next_id : Nat
deriving DecidableEq, Repr

/-- Python's `str.upper()` (ASCII), written over the character list so that
it evaluates by kernel reduction. -/
def str_upper (s : String) : String := ⟨s.data.map Char.toUpper⟩

/-- Python's `str.strip()` whitespace test. -/
def is_space (c : Char) : Bool := c = ' ' || c = '\t' || c = '\n' || c = '\r'

/-- Python's `str.strip()`, written over the character list so that it
evaluates by kernel reduction. -/
def str_trim (s : String) : String :=
  ⟨((s.data.dropWhile is_space).reverse.dropWhile is_space).reverse⟩

/-- `True` on `Except.error` (the model of a raised `ValueError`). -/
def raisesValueError {α : Type} : Except String α → Bool
  | .error _ => true
  | .ok _ => false

/-! ## Query helpers (`services.py`)

`Query.order_by(...).first()` is modelled as a stable insertion sort followed
by `head?`; Python's `sorted` (stable) is modelled the same way. -/

/-- `services.active_contract_for_sepultura`. -/
def active_contract_for_sepultura (s : DBState) (sepultura_id : Nat) :
    Option DerechoFunerarioContrato :=
  (List.insertionSort (fun a b : DerechoFunerarioContrato => b.id ≤ a.id)
    (s.contratos.filter (fun c =>
      decide (c.sepultura_id = sepultura_id ∧ c.estado = "ACTIVO")))).head?

/-- `services.active_titular_for_contract` (the ambient `date.today()` is the
`today` argument). -/
def active_titular_for_contract (s : DBState) (today : Date) (contract_id : Nat) :
    Option OwnershipRecord :=
  (List.insertionSort (fun a b : OwnershipRecord => Date.le b.start_date a.start_date = true)
    (s.ownership_records.filter (fun r =>
      decide (r.contract_id = contract_id) &&
        (match r.end_date with | none => true | some d => Date.le today d)))).head?

/-- `services.active_beneficiario_for_contract`. -/
def active_beneficiario_for_contract (s : DBState) (today : Date) (contract_id : Nat) :
    Option Beneficiario :=
  (List.insertionSort (fun a b : Beneficiario => Date.le b.activo_desde a.activo_desde = true)
    (s.beneficiarios.filter (fun b =>
      decide (b.contrato_id = contract_id) &&
        (match b.activo_hasta with | none => true | some d => Date.le today d)))).head?

/-- `services._active_titular_for_contract_on`. -/
def active_titular_for_contract_on (s : DBState) (contract_id : Nat)
    (reference_date : Date) : Option OwnershipRecord :=
  (List.insertionSort (fun a b : OwnershipRecord => Date.le b.start_date a.start_date = true)
    (s.ownership_records.filter (fun r =>
      decide (r.contract_id = contract_id) && Date.le r.start_date reference_date &&
        (match r.end_date with | none => true | some d => Date.le reference_date d)))).head?

/-- `services.sepultura_by_id`. -/
def sepultura_by_id (s : DBState) (sepultura_id : Nat) : Except String Sepultura :=
  match s.sepulturas.find? (fun sp => decide (sp.id = sepultura_id)) with
  | none => .error "Sepultura no encontrada"
  | some sep => .ok sep

/-- `services.contract_by_id`. -/
def contract_by_id (s : DBState) (contract_id : Nat) :
    Except String DerechoFunerarioContrato :=
  match s.contratos.find? (fun c => decide (c.id = contract_id)) with
  | none => .error "Contrato no encontrado"
  | some c => .ok c

/-- `services._person_by_org`. -/
def person_by_org (s : DBState) (person_id : Nat) : Except String Person :=
  match s.persons.find? (fun p => decide (p.id = person_id)) with
  | none => .error "no encontrada"
  | some p => .ok p

/-- `services._clean_dni_nif`. -/
def clean_dni_nif (value : Option String) : Option String :=
  match value with
  | none => none
  | some v => let raw := str_upper (str_trim v); if raw = "" then none else some raw

/-- `services._create_or_reuse_person`: reuse a person by DNI/NIF or insert a
new row. -/
def create_or_reuse_person (s : DBState) (first_name last_name : String)
    (dni_nif : Option String) : Except String (Person × DBState) :=
  let first_name := str_trim first_name
  let last_name := str_trim last_name
  let dni_nif := clean_dni_nif dni_nif
  if first_name = "" then .error "El nombre de la persona es obligatorio"
  else
    match dni_nif.bind (fun d => s.persons.find? (fun p => decide (p.dni_nif = some d))) with
    | some existing => .ok (existing, s)
    | none =>
      let person : Person :=
        { id := s.next_id, first_name := first_name, last_name := last_name,
          dni_nif := dni_nif }
      .ok (person, { s with persons := s.persons ++ [person], next_id := s.next_id + 1 })

/-! ## Maintenance-fee billing (`services.py`) -/

/-- The `TasaMantenimientoTicket.query.filter_by(org, contrato, anio).first()`
existence check of `generate_maintenance_tickets_for_year`. -/
def has_ticket_for_year (s : DBState) (contract_id : Nat) (year : Int) : Bool :=
  s.tickets.any (fun t => decide (t.contrato_id = contract_id ∧ t.anio = year))

/-- The eligibility filter of `generate_maintenance_tickets_for_year`'s
contract query: ACTIVO, CONCESION, in force on `jan_1`, grave (inner join)
not PROPIA. -/
def contract_eligible_on (s : DBState) (jan_1 : Date)
    (c : DerechoFunerarioContrato) : Bool :=
  (match s.sepulturas.find? (fun sp => decide (sp.id = c.sepultura_id)) with
   | none => false
   | some sp => decide (sp.estado ≠ SepulturaEstado.PROPIA)) &&
    decide (c.estado = "ACTIVO") && decide (c.tipo = DerechoTipo.CONCESION) &&
    Date.le c.fecha_inicio jan_1 && Date.le jan_1 c.fecha_fin

/-- The contract list of `generate_maintenance_tickets_for_year` (filtered,
ordered by id ascending). -/
def eligible_contracts (s : DBState) (year : Int) : List DerechoFunerarioContrato :=
  List.insertionSort (fun a b : DerechoFunerarioContrato => a.id ≤ b.id)
    (s.contratos.filter (contract_eligible_on s ⟨year, 1, 1⟩))

/-- `generate_maintenance_tickets_for_year`'s `apply_pensionista` condition:
the titular on 1 January is a pensioner whose pensioner-since year is at most
the ticket year. -/
def pensionista_applies (titular : Option OwnershipRecord) (year : Int) : Bool :=
  match titular with
  | none => false
  | some t =>
    t.is_pensioner &&
      (match t.pensioner_since_date with
       | none => false
       | some d => decide (year ≥ d.year))

/-- The ticket row that one iteration of
`services.generate_maintenance_tickets_for_year` inserts for `contract`:
PENDIENTE, for `year`, with the annual fee discounted when the titular on
1 January is an eligible pensioner. -/
def mk_maintenance_ticket (s : DBState) (contract : DerechoFunerarioContrato)
    (year : Int) (jan_1 : Date) (discount_pct : Int) : TasaMantenimientoTicket :=
  let titular := active_titular_for_contract_on s contract.id jan_1
  let apply_p := pensionista_applies titular year
  let base_amount := contract.annual_fee_amount
  { id := s.next_id, contrato_id := contract.id, invoice_id := none, anio := year,
    importe := if apply_p then apply_discount base_amount discount_pct else base_amount,
    descuento_tipo := if apply_p then .PENSIONISTA else .NONE,
    estado := .PENDIENTE }

/-- The `for contract in contracts` loop body of
`services.generate_maintenance_tickets_for_year`. -/
def generate_tickets_go (year : Int) (jan_1 : Date) (discount_pct : Int) :
    List DerechoFunerarioContrato → TicketGenerationResult → DBState →
      TicketGenerationResult × DBState
  | [], result, s => (result, s)
  | contract :: rest, result, s =>
    if has_ticket_for_year s contract.id year then
      generate_tickets_go year jan_1 discount_pct rest
        { result with existing := result.existing + 1 } s
    else
      generate_tickets_go year jan_1 discount_pct rest
        { result with created := result.created + 1 }
        { s with
          tickets := s.tickets ++ [mk_maintenance_ticket s contract year jan_1 discount_pct],
          next_id := s.next_id + 1 }

/-- `services.generate_maintenance_tickets_for_year`. -/
def generate_maintenance_tickets_for_year (s : DBState) (year : Int) :
    TicketGenerationResult × DBState :=
  generate_tickets_go year ⟨year, 1, 1⟩ s.pensionista_discount_pct
    (eligible_contracts s year) ⟨0, 0, 0⟩ s

/-- The `pending_tickets` query of `services.sepultura_tickets_and_invoices`
(PENDIENTE tickets of the contract, ordered by year ascending). -/
def pending_tickets_for_contract (s : DBState) (contract_id : Nat) :
    List TasaMantenimientoTicket :=
  List.insertionSort (fun a b : TasaMantenimientoTicket => a.anio ≤ b.anio)
    (s.tickets.filter (fun t =>
      decide (t.contrato_id = contract_id ∧ t.estado = TicketEstado.PENDIENTE)))

/-- The `for ticket in ordered: ... else: break` loop of
`validate_oldest_prefix_selection`: the length of the leading run of tickets
whose ids are in the selected set. -/
def selected_run_length (selected_ids : List Nat) :
    List TasaMantenimientoTicket → Nat
  | [] => 0
  | t :: rest =>
    if selected_ids.contains t.id then selected_run_length selected_ids rest + 1
    else 0

/-- Python set equality (`selected_set != expected`) on id lists. -/
def eq_as_sets (a b : List Nat) : Bool :=
  a.all (fun x => b.contains x) && b.all (fun x => a.contains x)

/-- `services.validate_oldest_prefix_selection`. -/
def validate_oldest_prefix_selection (tickets : List TasaMantenimientoTicket)
    (selected_ids : List Nat) : Except String Unit :=
  if selected_ids = [] then .error "Selecciona al menos un año"
  else
    let ordered := List.insertionSort (fun a b => a.anio ≤ b.anio) tickets
    let prefix_count := selected_run_length selected_ids ordered
    let expected := (ordered.take prefix_count).map (·.id)
    if eq_as_sets selected_ids expected then .ok ()
    else .error "Debes cobrar empezando por el año pendiente más antiguo"

/-- `services._next_invoice_number` (the invoice count plus one; the
current-year prefix filter is an identity in this one-period model). -/
def next_invoice_number (s : DBState) : String :=
  "F-CEM-" ++ toString (s.invoices.length + 1)

/-- `services._next_receipt_number` (same modelling as the invoice number). -/
def next_receipt_number (s : DBState) : String :=
  "R-CEM-" ++ toString (s.payments.length + 1)

/-- The row-selection predicate of `services._selected_pending_tickets`. -/
def is_selected_pending (contract_id : Nat) (selected_ids : List Nat)
    (t : TasaMantenimientoTicket) : Bool :=
  decide (t.contrato_id = contract_id ∧ t.estado = TicketEstado.PENDIENTE) &&
    selected_ids.contains t.id

/-- `services._selected_pending_tickets` (ordered by year ascending). -/
def selected_pending_tickets (s : DBState) (contract_id : Nat)
    (selected_ids : List Nat) : List TasaMantenimientoTicket :=
  List.insertionSort (fun a b : TasaMantenimientoTicket => a.anio ≤ b.anio)
    (s.tickets.filter (is_selected_pending contract_id selected_ids))

/-- `services.generate_invoice_for_tickets`: disabled under the cash
criterion (`criterio de caja`), raises unconditionally. -/
def generate_invoice_for_tickets (_sepultura_id : Nat) (_selected_ids : List Nat) :
    Except String Invoice :=
  .error "Operacion no disponible por criterio de caja"

/-- `services._ticket_amount_with_discount`. -/
def ticket_amount_with_discount (ticket : TasaMantenimientoTicket)
    (contrato : DerechoFunerarioContrato) (titularidad : Option OwnershipRecord)
    (discount_ticket_ids : List Nat) (discount_pct : Int) :
    Int × TicketDescuentoTipo :=
  let base_amount := contrato.annual_fee_amount
  let base_amount := if base_amount ≤ 0 then ticket.importe else base_amount
  match titularidad with
  | none => (base_amount, .NONE)
  | some tit =>
    if !tit.is_pensioner then (base_amount, .NONE)
    else
      match tit.pensioner_since_date with
      | none => (base_amount, .NONE)
      | some since =>
        if decide (ticket.anio ≥ since.year) || discount_ticket_ids.contains ticket.id then
          (apply_discount base_amount discount_pct, .PENSIONISTA)
        else (base_amount, .NONE)

/-- `services.collect_tickets`: validates the oldest-first selection, marks
the selected tickets COBRADO and creates a PAGADA invoice together with its
payment in one transaction. -/
def collect_tickets (s : DBState) (sepultura_id : Nat) (selected_ids : List Nat)
    (method : String) (today : Date) (discount_ticket_ids : List Nat) :
    Except String (Invoice × Payment × DBState) :=
  match s.sepulturas.find? (fun sp => decide (sp.id = sepultura_id)) with
  | none => .error "Sepultura no encontrada"
  | some sep =>
    match active_contract_for_sepultura s sepultura_id with
    | none => .error "La sepultura no tiene contrato activo"
    | some contrato =>
      if sep.estado = SepulturaEstado.PROPIA then
        .error "Las sepulturas Propia no generan tiquets de contribucion"
      else
        match validate_oldest_prefix_selection
            (pending_tickets_for_contract s contrato.id) selected_ids with
        | .error e => .error e
        | .ok () =>
          let selected := selected_pending_tickets s contrato.id selected_ids
          let titularidad := active_titular_for_contract s today contrato.id
          let discount_pct := s.pensionista_discount_pct
          let total := (selected.map (fun t =>
            (ticket_amount_with_discount t contrato titularidad discount_ticket_ids
              discount_pct).1)).sum
          let invoice : Invoice :=
            { id := s.next_id, contrato_id := contrato.id, sepultura_id := sepultura_id,
              numero := next_invoice_number s, estado := .PAGADA, total_amount := total }
          let payment : Payment :=
            { invoice_id := invoice.id, amount := total, method := method,
              receipt_number := next_receipt_number s }
          .ok (invoice, payment,
            { s with
              tickets := s.tickets.map (fun t =>
                if is_selected_pending contrato.id selected_ids t then
                  let ad := ticket_amount_with_discount t contrato titularidad discount_ticket_ids discount_pct
                  { t with
                    importe := ad.1
                    descuento_tipo := ad.2
                    estado := TicketEstado.COBRADO
                    invoice_id := some invoice.id }
                else t),
              invoices := s.invoices ++ [invoice],
              payments := s.payments ++ [payment],
              next_id := s.next_id + 1 })

/-! ## Audit logging (`services.py`) -/

/-- `services._log_contract_event` (detail text and acting user dropped). -/
def log_contract_event (s : DBState) (contract_id : Nat) (case_id : Option Nat)
    (event_type : String) : DBState :=
  { s with contract_events := s.contract_events ++ [⟨contract_id, case_id, event_type⟩] }

/-- `services._log_case_movement` (detail text and acting user dropped). -/
def log_case_movement (s : DBState) (contract : DerechoFunerarioContrato)
    (movement_type : MovimientoTipo) : DBState :=
  { s with movimientos := s.movimientos ++ [⟨contract.sepultura_id, movement_type⟩] }

/-! ## Funeral-right contract creation (`services.py`, `models.py`) -/

/-- The legal duration cap of `models.DerechoFunerarioContrato
.validate_duration_fields`: 25 years for USO_INMEDIATO, 99 for a legacy
99-year concession, 50 otherwise. -/
def contract_max_years (tipo : DerechoTipo) (legacy_99_years : Bool) : Int :=
  if tipo = DerechoTipo.USO_INMEDIATO then 25
  else if legacy_99_years then 99
  else 50

/-- `models.DerechoFunerarioContrato.validate_duration_fields`, as it fires
once `fecha_inicio`, `fecha_fin` and `tipo` are all assigned (the
constructor assigns `fecha_fin` last, so an over-cap contract raises at
construction). -/
def validate_duration_fields (tipo : DerechoTipo) (fecha_inicio fecha_fin : Date)
    (legacy_99_years : Bool) : Except String Unit :=
  if fecha_fin.year - fecha_inicio.year > contract_max_years tipo legacy_99_years then
    .error "El contrato supera el limite legal"
  else .ok ()

/-- `models.contract_after_insert` (SQLAlchemy `after_insert` hook, fired at
`db.session.flush()`): sets the contract's grave to OCUPADA and records a
CONTRATO movement. -/
def contract_after_insert (s : DBState) (target : DerechoFunerarioContrato) : DBState :=
  { s with
    sepulturas := s.sepulturas.map (fun sp =>
      if sp.id = target.sepultura_id then { sp with estado := SepulturaEstado.OCUPADA }
      else sp),
    movimientos := s.movimientos ++ [⟨target.sepultura_id, MovimientoTipo.CONTRATO⟩] }

/-- `services._parse_iso_date` over an already-decoded field (a `none`
models a missing or unparseable date string). -/
def parse_iso_date (value : Option Date) (field_name : String) : Except String Date :=
  match value with
  | none => .error ("Falta " ++ field_name)
  | some d => .ok d

/-- `services._parse_decimal` over an already-decoded field. -/
def parse_decimal (value : Option Int) (field_name : String) : Except String Int :=
  match value with
  | none => .error ("Falta " ++ field_name)
  | some v => .ok v

/-- The `DerechoTipo[tipo_raw]` lookup of
`services.create_funeral_right_contract`. -/
def parse_derecho_tipo (value : String) : Except String DerechoTipo :=
  match str_upper (str_trim value) with
  | "CONCESION" => .ok DerechoTipo.CONCESION
  | "USO_INMEDIATO" => .ok DerechoTipo.USO_INMEDIATO
  | _ => .error "Tipo de contrato invalido"

/-- The form payload of `services.create_funeral_right_contract`.  Dates,
amounts and numeric ids arrive already decoded (`none` models a missing or
non-digit field); the boolean flags model the `in {"1", "on", "true",
"yes"}` string tests. -/
structure CreateContractPayload where
  tipo : String := ""
  fecha_inicio : Option Date := none
  fecha_fin : Option Date := none
  annual_fee_amount : Option Int := none
  legacy_99_years : Bool := false
  titular_person_id : Option Nat := none
  titular_first_name : String := ""
  titular_last_name : String := ""
  titular_dni_nif : Option String := none
  pensionista : Bool := false
  pensionista_desde : Option Date := none
  beneficiario_person_id : Option Nat := none
  beneficiario_first_name : String := ""
  beneficiario_last_name : String := ""
  beneficiario_dni_nif : Option String := none
deriving DecidableEq, Repr

/-- The contract row built by `create_funeral_right_contract`. -/
def mk_contrato (s : DBState) (sep : Sepultura) (tipo : DerechoTipo)
    (fecha_inicio fecha_fin : Date) (annual_fee_amount : Int)
    (payload : CreateContractPayload) : DerechoFunerarioContrato :=
  { id := s.next_id, sepultura_id := sep.id, tipo := tipo,
    fecha_inicio := fecha_inicio, fecha_fin := fecha_fin,
    legacy_99_years := payload.legacy_99_years,
    annual_fee_amount := annual_fee_amount, estado := "ACTIVO" }

/-- The open titular row inserted by `create_funeral_right_contract`. -/
def contract_open_record (s : DBState) (contrato : DerechoFunerarioContrato)
    (titular : Person) (fecha_inicio : Date) (payload : CreateContractPayload) :
    OwnershipRecord :=
  { id := s.next_id, contract_id := contrato.id, person_id := titular.id,
    start_date := fecha_inicio, end_date := none,
    is_pensioner := payload.pensionista,
    pensioner_since_date := payload.pensionista_desde,
    is_provisional := false, provisional_until := none }

/-- The open beneficiary row that `create_funeral_right_contract` inserts
when a beneficiary is given. -/
def add_contract_beneficiario (s : DBState) (contrato : DerechoFunerarioContrato)
    (fecha_inicio : Date) (p : Person) : DBState :=
  { s with
    beneficiarios := s.beneficiarios ++
      [{ id := s.next_id, contrato_id := contrato.id, person_id := p.id,
         activo_desde := fecha_inicio, activo_hasta := none }],
    next_id := s.next_id + 1 }

/-- The committed rows of `create_funeral_right_contract` after validation:
the contract row (firing `contract_after_insert` at flush), the open titular
row, and the optional open beneficiary row. -/
def create_contract_rows (s : DBState) (sep : Sepultura) (tipo : DerechoTipo)
    (fecha_inicio fecha_fin : Date) (annual_fee_amount : Int) (titular : Person)
    (payload : CreateContractPayload) :
    Except String (DerechoFunerarioContrato × DBState) :=
  let contrato := mk_contrato s sep tipo fecha_inicio fecha_fin annual_fee_amount payload
  let s1 := contract_after_insert
    { s with contratos := s.contratos ++ [contrato], next_id := s.next_id + 1 } contrato
  let s2 :=
    { s1 with
      ownership_records := s1.ownership_records ++
        [contract_open_record s1 contrato titular fecha_inicio payload],
      next_id := s1.next_id + 1 }
  match payload.beneficiario_person_id with
  | some pid =>
    match person_by_org s2 pid with
    | .error e => .error e
    | .ok beneficiario =>
      .ok (contrato, add_contract_beneficiario s2 contrato fecha_inicio beneficiario)
  | none =>
    if str_trim payload.beneficiario_first_name = "" then .ok (contrato, s2)
    else
      match create_or_reuse_person s2 payload.beneficiario_first_name
          payload.beneficiario_last_name payload.beneficiario_dni_nif with
      | .error e => .error e
      | .ok (beneficiario, s3) =>
        .ok (contrato, add_contract_beneficiario s3 contrato fecha_inicio beneficiario)

/-- `services.create_funeral_right_contract`: requires a DISPONIBLE grave
with no active contract, builds the contract (the duration validator fires
at construction), flushes (firing `contract_after_insert`), and inserts the
open titular row and the optional open beneficiary row. -/
def create_funeral_right_contract (s : DBState) (sepultura_id : Nat)
    (payload : CreateContractPayload) :
    Except String (DerechoFunerarioContrato × DBState) :=
  match sepultura_by_id s sepultura_id with
  | .error e => .error e
  | .ok sep =>
  if sep.estado ≠ SepulturaEstado.DISPONIBLE then
    .error "Solo se puede contratar en sepulturas en estado DISPONIBLE"
  else if (active_contract_for_sepultura s sep.id).isSome then
    .error "La sepultura ya tiene un contrato activo"
  else
  match parse_derecho_tipo payload.tipo with
  | .error e => .error e
  | .ok tipo =>
  match parse_iso_date payload.fecha_inicio "fecha inicio" with
  | .error e => .error e
  | .ok fecha_inicio =>
  match parse_iso_date payload.fecha_fin "fecha fin" with
  | .error e => .error e
  | .ok fecha_fin =>
  match parse_decimal payload.annual_fee_amount "importe anual" with
  | .error e => .error e
  | .ok annual_fee_amount =>
  match (match payload.titular_person_id with
         | some pid => (person_by_org s pid).map (fun p => (p, s))
         | none => create_or_reuse_person s payload.titular_first_name
             payload.titular_last_name payload.titular_dni_nif) with
  | .error e => .error e
  | .ok (titular, s) =>
  match validate_duration_fields tipo fecha_inicio fecha_fin payload.legacy_99_years with
  | .error e => .error e
  | .ok () =>
    create_contract_rows s sep tipo fecha_inicio fecha_fin annual_fee_amount
      titular payload

/-- The form payload of `services.nominate_contract_beneficiary`. -/
structure NominatePayload where
  person_id : Option Nat := none
  first_name : String := ""
  last_name : String := ""
  dni_nif : Option String := none
deriving DecidableEq, Repr

/-- `services.nominate_contract_beneficiary`: keeps the active beneficiary
when re-nominated, otherwise closes the active row (`activo_hasta` today)
and inserts the new open row; records BENEFICIARIO audit entries. -/
def nominate_contract_beneficiary (s : DBState) (contract_id : Nat)
    (payload : NominatePayload) (today : Date) :
    Except String (Beneficiario × DBState) :=
  match contract_by_id s contract_id with
  | .error e => .error e
  | .ok contrato =>
  match (match payload.person_id with
         | some pid => (person_by_org s pid).map (fun p => (p, s))
         | none =>
           if str_trim payload.first_name = "" then
             .error "Debes seleccionar o crear un beneficiario"
           else create_or_reuse_person s payload.first_name payload.last_name
             payload.dni_nif) with
  | .error e => .error e
  | .ok (person, s) =>
  let mk_new := fun (s : DBState) =>
    let beneficiary : Beneficiario :=
      { id := s.next_id, contrato_id := contrato.id, person_id := person.id,
        activo_desde := today, activo_hasta := none }
    let s := { s with
      beneficiarios := s.beneficiarios ++ [beneficiary]
      next_id := s.next_id + 1 }
    let s := log_case_movement s contrato MovimientoTipo.BENEFICIARIO
    let s := log_contract_event s contrato.id none "BENEFICIARIO"
    (beneficiary, s)
  match active_beneficiario_for_contract s today contrato.id with
  | some active =>
    if active.person_id = person.id then
      let s := log_case_movement s contrato MovimientoTipo.BENEFICIARIO
      let s := log_contract_event s contrato.id none "BENEFICIARIO"
      .ok (active, s)
    else
      let s := { s with beneficiarios := s.beneficiarios.map (fun b =>
        if b.id = active.id then { b with activo_hasta := some today } else b) }
      .ok (mk_new s)
  | none => .ok (mk_new s)

/-! ## Ownership-transfer case workflow (`services.py`) -/

/-- `services.CASE_STATUS_TRANSITIONS`: the fixed 6-state transition
relation. -/
def CASE_STATUS_TRANSITIONS (status : OwnershipTransferStatus) :
    List OwnershipTransferStatus :=
  match status with
  | .DRAFT => [.DOCS_PENDING]
  | .DOCS_PENDING => [.UNDER_REVIEW, .REJECTED]
  | .UNDER_REVIEW => [.DOCS_PENDING, .APPROVED, .REJECTED]
  | .REJECTED => [.DOCS_PENDING]
  | .APPROVED => [.CLOSED]
  | .CLOSED => []

/-- `services._parse_transfer_status`. -/
def parse_transfer_status (value : String) :
    Except String OwnershipTransferStatus :=
  match str_upper (str_trim value) with
  | "DRAFT" => .ok .DRAFT
  | "DOCS_PENDING" => .ok .DOCS_PENDING
  | "UNDER_REVIEW" => .ok .UNDER_REVIEW
  | "APPROVED" => .ok .APPROVED
  | "REJECTED" => .ok .REJECTED
  | "CLOSED" => .ok .CLOSED
  | _ => .error "Estado de caso invalido"

/-- `services._transition_case_status`: raises unless the target status is
allowed from the current one. -/
def transition_case_status (c : OwnershipTransferCase)
    (new_status : OwnershipTransferStatus) : Except String OwnershipTransferCase :=
  if new_status ∈ CASE_STATUS_TRANSITIONS c.status then
    .ok { c with status := new_status }
  else .error "Transicion invalida"

/-- `services._get_case_or_404`. -/
def get_case_or_404 (s : DBState) (case_id : Nat) :
    Except String OwnershipTransferCase :=
  match s.cases.find? (fun c => decide (c.id = case_id)) with
  | none => .error "Caso no encontrado"
  | some c => .ok c

/-- `services._case_party`: the first party of the case with the role. -/
def case_party (c : OwnershipTransferCase) (role : OwnershipPartyRole) :
    Option OwnershipTransferParty :=
  c.parties.find? (fun p => decide (p.role = role))

/-- Writing the mutated ORM `case` object back at commit: replace the row
with the same id. -/
def update_case (s : DBState) (c : OwnershipTransferCase) : DBState :=
  { s with cases := s.cases.map (fun c' => if c'.id = c.id then c else c') }

/-- `services._ensure_resolution_pdf`, reduced to its database effect: a
resolution number is assigned when missing, and a PDF path is recorded
(the rendered document itself is outside the model). -/
def ensure_resolution_pdf (s : DBState) (c : OwnershipTransferCase) :
    OwnershipTransferCase :=
  let n := (s.cases.filter (fun c' => c'.resolution_number ≠ none)).length + 1
  let c :=
    if c.resolution_number = none then
      { c with resolution_number := some ("RES-" ++ toString n) }
    else c
  { c with resolution_pdf_path := some "resolucion.pdf" }

/-- Observer: the status of the case with the given id (the database view a
client reads back after an operation). -/
def case_status_in (s : DBState) (case_id : Nat) : Option OwnershipTransferStatus :=
  (s.cases.find? (fun c => decide (c.id = case_id))).map (·.status)

/-- `services.change_ownership_case_status`. -/
def change_ownership_case_status (s : DBState) (case_id : Nat)
    (new_status_raw : String) : Except String DBState :=
  match get_case_or_404 s case_id with
  | .error e => .error e
  | .ok c =>
  match parse_transfer_status new_status_raw with
  | .error e => .error e
  | .ok new_status =>
  match transition_case_status c new_status with
  | .error e => .error e
  | .ok c => .ok (update_case s c)

/-- `services.approve_ownership_case`. -/
def approve_ownership_case (s : DBState) (case_id : Nat) : Except String DBState :=
  match get_case_or_404 s case_id with
  | .error e => .error e
  | .ok c =>
  match transition_case_status c OwnershipTransferStatus.APPROVED with
  | .error e => .error e
  | .ok c =>
  let c := ensure_resolution_pdf s c
  match s.contratos.find? (fun ct => decide (ct.id = c.contract_id)) with
  | none => .error "Contrato no encontrado"
  | some contract =>
  let s := log_case_movement s contract MovimientoTipo.APROBACION
  let s := log_contract_event s c.contract_id (some c.id) "APROBACION"
  .ok (update_case s c)

/-- `services.reject_ownership_case`: transitions to REJECTED, then requires
a non-empty reason (an empty reason raises, rolling the transition back). -/
def reject_ownership_case (s : DBState) (case_id : Nat) (reason : String) :
    Except String DBState :=
  match get_case_or_404 s case_id with
  | .error e => .error e
  | .ok c =>
  match transition_case_status c OwnershipTransferStatus.REJECTED with
  | .error e => .error e
  | .ok c =>
  let c := { c with rejection_reason := some (str_trim reason) }
  if str_trim reason = "" then .error "Motivo de rechazo obligatorio"
  else
  match s.contratos.find? (fun ct => decide (ct.id = c.contract_id)) with
  | none => .error "Contrato no encontrado"
  | some contract =>
  let s := log_case_movement s contract MovimientoTipo.RECHAZO
  let s := log_contract_event s c.contract_id (some c.id) "RECHAZO"
  .ok (update_case s c)

/-- `services.BENEFICIARY_REPLACE_REQUIRED_DOC_TYPES`. -/
def BENEFICIARY_REPLACE_REQUIRED_DOC_TYPES : List String :=
  ["SOLICITUD_BENEFICIARIO", "DNI_NUEVO_BENEFICIARIO"]

/-- The `next(...)` checklist lookup of the close validator: the case
document of the given type exists and is VERIFIED. -/
def doc_verified (c : OwnershipTransferCase) (doc_type : String) : Bool :=
  match c.documents.find? (fun d => decide (d.doc_type = doc_type)) with
  | none => false
  | some d => decide (d.status = CaseDocumentStatus.VERIFIED)

/-- The `payload` of `services.close_ownership_case` (same decoding
conventions as `CreateContractPayload`; `beneficiary_close_decision` stays
the raw form string, matched after strip/upper as in the source). -/
structure ClosePayload where
  beneficiary_close_decision : String := ""
  is_pensioner : Bool := false
  pensioner_since_date : Option Date := none
  beneficiary_person_id : Option Nat := none
  beneficiary_first_name : String := ""
  beneficiary_last_name : String := ""
  beneficiary_dni_nif : Option String := none
deriving DecidableEq, Repr

/-- `services._validate_case_ready_to_close`. -/
def validate_case_ready_to_close (c : OwnershipTransferCase)
    (payload : ClosePayload) : Except String Unit :=
  if c.status ≠ OwnershipTransferStatus.APPROVED then
    .error "Solo se pueden cerrar casos en estado APPROVED"
  else if c.documents.any (fun d =>
      d.required && decide (d.status ≠ CaseDocumentStatus.VERIFIED)) then
    .error "Faltan documentos obligatorios verificados"
  else if (case_party c OwnershipPartyRole.NUEVO_TITULAR).isNone then
    .error "Debes informar la parte NUEVO_TITULAR"
  else if c.type = OwnershipTransferType.PROVISIONAL ∧
      ¬(c.publications.any (fun p => decide (str_upper p.channel = "BOP")) = true ∧
        c.publications.any (fun p => decide (str_upper p.channel ≠ "BOP")) = true) then
    .error "El caso provisional requiere publicacion en BOP y en otro canal"
  else if str_upper (str_trim payload.beneficiary_close_decision) = "REPLACE" ∧
      ¬BENEFICIARY_REPLACE_REQUIRED_DOC_TYPES.all (fun doc_type =>
        doc_verified c doc_type) = true then
    .error "validation.transfer.beneficiary_replace_docs_missing"
  else if c.type = OwnershipTransferType.INTER_VIVOS ∧
      ¬doc_verified c "ACREDITACION_PARENTESCO_2_GRADO" = true then
    .error "validation.transfer.intervivos_requires_second_degree_doc"
  else .ok ()

/-- The MORTIS_CAUSA_CON_BENEFICIARIO preload of
`services.close_ownership_case`: when such a case has no NUEVO_TITULAR
party yet, the contract's active beneficiary is required and a party row is
inserted for it — but only by setting the foreign key (`case_id=case.id`)
plus `db.session.flush()`.  The `case.parties` collection was already
loaded by the `joinedload` of `_get_case_or_404` and `back_populates` syncs
only on relationship-attribute assignment, so the loaded collection stays
stale: the case the caller keeps validating is unchanged (the flushed row
itself is rolled back by the `ValueError` the validator then raises, so it
never becomes observable). -/
def close_preload_new_holder (s : DBState) (c : OwnershipTransferCase)
    (today : Date) : Except String OwnershipTransferCase :=
  if c.type = OwnershipTransferType.MORTIS_CAUSA_CON_BENEFICIARIO then
    match case_party c OwnershipPartyRole.NUEVO_TITULAR with
    | some _ => .ok c
    | none =>
      match active_beneficiario_for_contract s today c.contract_id with
      | none => .error "validation.transfer.beneficiary_required_for_mortis_with_beneficiario"
      | some _ => .ok c
  else .ok c

/-- The `BeneficiaryCloseDecision[decision_raw]` lookup of
`services.close_ownership_case`. -/
def parse_beneficiary_close_decision (raw : String) :
    Except String BeneficiaryCloseDecision :=
  match raw with
  | "KEEP" => .ok .KEEP
  | "REPLACE" => .ok .REPLACE
  | _ => .error "Decision de beneficiario invalida"

/-- The closing tail of `services.close_ownership_case` after the
beneficiary decision: stamps `closed_at`, ensures the resolution PDF and
records the CAMBIO_TITULARIDAD movement and contract event. -/
def close_finish (s : DBState) (c : OwnershipTransferCase) (today : Date) :
    Except String DBState :=
  match s.contratos.find? (fun ct => decide (ct.id = c.contract_id)) with
  | none => .error "Contrato no encontrado"
  | some contract =>
    let c2 : OwnershipTransferCase := { c with closed_at := some today }
    let c3 := if c2.resolution_pdf_path = none then ensure_resolution_pdf s c2 else c2
    .ok (update_case
      (log_contract_event (log_case_movement s contract MovimientoTipo.CAMBIO_TITULARIDAD)
        c.contract_id (some c.id) "CAMBIO_TITULARIDAD")
      c3)

/-- The titular-closing step of `close_ownership_case`: sets `end_date` of
the row `active_titular_for_contract` returns (if any) to today. -/
def close_titular_records (s : DBState) (c : OwnershipTransferCase)
    (today : Date) : DBState :=
  match active_titular_for_contract s today c.contract_id with
  | some po =>
    { s with ownership_records := s.ownership_records.map (fun r =>
        if r.id = po.id then { r with end_date := some today } else r) }
  | none => s

/-- The new open titular row inserted by `close_ownership_case`. -/
def close_new_record (s : DBState) (c : OwnershipTransferCase)
    (new_owner_party : OwnershipTransferParty) (payload : ClosePayload)
    (today : Date) : OwnershipRecord :=
  { id := s.next_id, contract_id := c.contract_id,
    person_id := new_owner_party.person_id,
    start_date := today, end_date := none,
    is_pensioner := payload.is_pensioner,
    pensioner_since_date := payload.pensioner_since_date,
    is_provisional := decide (c.type = OwnershipTransferType.PROVISIONAL),
    provisional_until :=
      if c.type = OwnershipTransferType.PROVISIONAL then c.provisional_until
      else none }

/-- Inserting the new open titular row. -/
def close_insert_record (s : DBState) (c : OwnershipTransferCase)
    (new_owner_party : OwnershipTransferParty) (payload : ClosePayload)
    (today : Date) : DBState :=
  { s with
    ownership_records := s.ownership_records ++
      [close_new_record s c new_owner_party payload today],
    next_id := s.next_id + 1 }

/-- The REPLACE branch of the beneficiary close decision: closes the active
beneficiary row (if any) and inserts the open row for the new beneficiary
person. -/
def close_replace_beneficiary_rows (s : DBState) (c : OwnershipTransferCase)
    (active_beneficiary : Option Beneficiario) (p : Person) (today : Date) :
    DBState :=
  let s : DBState :=
    match active_beneficiary with
    | some ab =>
      { s with beneficiarios := s.beneficiarios.map (fun b =>
          if b.id = ab.id then { b with activo_hasta := some today } else b) }
    | none => s
  { s with
    beneficiarios := s.beneficiarios ++
      [{ id := s.next_id, contrato_id := c.contract_id, person_id := p.id,
         activo_desde := today, activo_hasta := none }],
    next_id := s.next_id + 1 }

/-- The new-beneficiary lookup of the REPLACE branch: select the person by
id or create/reuse one from the payload names. -/
def close_resolve_beneficiary_person (s : DBState) (payload : ClosePayload) :
    Except String (Person × DBState) :=
  match payload.beneficiary_person_id with
  | some pid => (person_by_org s pid).map (fun p => (p, s))
  | none => create_or_reuse_person s payload.beneficiary_first_name
      payload.beneficiary_last_name payload.beneficiary_dni_nif

/-- The committing body of `services.close_ownership_case` after validation
and the CLOSED transition: ends the active titular row (`end_date` today),
inserts the new open titular row for the NUEVO_TITULAR party's person, and
applies the beneficiary close decision. -/
def close_apply (s : DBState) (c : OwnershipTransferCase) (payload : ClosePayload)
    (today : Date) : Except String DBState :=
  match case_party c OwnershipPartyRole.NUEVO_TITULAR with
  | none => .error "new_owner_party missing"
  | some new_owner_party =>
  let s2 := close_insert_record (close_titular_records s c today) c
    new_owner_party payload today
  let active_beneficiary := active_beneficiario_for_contract s2 today c.contract_id
  let decision_raw := str_upper (str_trim payload.beneficiary_close_decision)
  if active_beneficiary.isSome ∧ decision_raw = "" then
    .error "Debes indicar si mantienes o sustituyes beneficiario"
  else if decision_raw = "" then close_finish s2 c today
  else
    match parse_beneficiary_close_decision decision_raw with
    | .error e => .error e
    | .ok decision =>
    let c := { c with beneficiary_close_decision := some decision }
    if decision = BeneficiaryCloseDecision.REPLACE then
      match close_resolve_beneficiary_person s2 payload with
      | .error e => .error e
      | .ok (new_beneficiary_person, s3) =>
        close_finish
          (close_replace_beneficiary_rows s3 c active_beneficiary
            new_beneficiary_person today) c today
    else close_finish s2 c today

/-- `services.close_ownership_case`. -/
def close_ownership_case (s : DBState) (case_id : Nat) (payload : ClosePayload)
    (today : Date) : Except String DBState :=
  match get_case_or_404 s case_id with
  | .error e => .error e
  | .ok c =>
  match close_preload_new_holder s c today with
  | .error e => .error e
  | .ok c =>
  match validate_case_ready_to_close c payload with
  | .error e => .error e
  | .ok () =>
  match transition_case_status c OwnershipTransferStatus.CLOSED with
  | .error e => .error e
  | .ok c => close_apply s c payload today

/-- A small concrete organization slice used to evaluate the billing
operations: one DISPONIBLE grave with an ACTIVO concession (annual fee
50.00) whose titular is a pensioner since 2022, a 10.00% pensioner discount,
and no tickets yet. -/
def demo_billing_state : DBState :=
  { sepulturas := [⟨1, .DISPONIBLE⟩]
    persons := []
    contratos := [⟨2, 1, .CONCESION, ⟨2020, 1, 1⟩, ⟨2045, 1, 1⟩, false, 5000, "ACTIVO"⟩]
    ownership_records := [⟨3, 2, 4, ⟨2020, 1, 1⟩, none, true, some ⟨2022, 3, 1⟩, false, none⟩]
    beneficiarios := []
    cases := []
    tickets := []
    invoices := []
    payments := []
    contract_events := []
    movimientos := []
    pensionista_discount_pct := 1000
    next_id := 10 }

/-- A draft INTER_VIVOS transfer case on the demo contract, used to evaluate
the workflow operations. -/
def demo_case : OwnershipTransferCase :=
  { id := 5, contract_id := 2, type := .INTER_VIVOS, status := .DRAFT,
    documents := [], parties := [], publications := [], rejection_reason := none,
    resolution_number := none, resolution_pdf_path := none,
    beneficiary_close_decision := none, provisional_until := none,
    closed_at := none }

/-- `demo_billing_state` with the demo transfer case added. -/
def demo_case_state : DBState :=
  { demo_billing_state with cases := [demo_case] }

/-! ## Grave state changes -/

/-- `services.change_sepultura_state`: manual grave state change; returns the
updated grave. -/
def change_sepultura_state (sepultura : Sepultura) (new_state : SepulturaEstado) :
    Except String Sepultura :=
  if new_state = SepulturaEstado.OCUPADA then
    .error "El estado Ocupada se asigna automáticamente al crear contrato"
  else if sepultura.estado = SepulturaEstado.OCUPADA ∧ new_state = SepulturaEstado.LLIURE then
    .error "No se puede pasar de Ocupada a Lliure manualmente"
  else if sepultura.estado = SepulturaEstado.PROPIA ∧ new_state = SepulturaEstado.OCUPADA then
    .error "Una sepultura Pròpia no puede contratarse"
  else
    .ok { sepultura with estado := new_state }

/-! ## Contract-creation fixtures -/

/-- A state with one DISPONIBLE grave and one registered person, used to
evaluate `create_funeral_right_contract`. -/
def demo_create_state : DBState :=
  { sepulturas := [⟨1, .DISPONIBLE⟩]
    persons := [⟨4, "Ana", "Prat", some "11111111A"⟩]
    contratos := []
    ownership_records := []
    beneficiarios := []
    cases := []
    tickets := []
    invoices := []
    payments := []
    contract_events := []
    movimientos := []
    pensionista_discount_pct := 1000
    next_id := 10 }

/-- A valid 25-year concession form for person 4 on grave 1. -/
def demo_create_payload : CreateContractPayload :=
  { tipo := "concesion", fecha_inicio := some ⟨2024, 1, 1⟩,
    fecha_fin := some ⟨2049, 1, 1⟩, annual_fee_amount := some 5000,
    titular_person_id := some 4 }

/-- The contract row that `create_funeral_right_contract` returns on
`demo_create_state` with `demo_create_payload`. -/
def demo_created_contract : DerechoFunerarioContrato :=
  ⟨10, 1, .CONCESION, ⟨2024, 1, 1⟩, ⟨2049, 1, 1⟩, false, 5000, "ACTIVO"⟩

/-- The state that `create_funeral_right_contract` commits on
`demo_create_state` with `demo_create_payload`: grave 1 OCUPADA, the new
contract, its open titular row, and the CONTRATO movement. -/
def demo_created_state : DBState :=
  { sepulturas := [⟨1, .OCUPADA⟩]
    persons := [⟨4, "Ana", "Prat", some "11111111A"⟩]
    contratos := [demo_created_contract]
    ownership_records := [⟨11, 10, 4, ⟨2024, 1, 1⟩, none, false, none, false, none⟩]
    beneficiarios := []
    cases := []
    tickets := []
    invoices := []
    payments := []
    contract_events := []
    movimientos := [⟨1, .CONTRATO⟩]
    pensionista_discount_pct := 1000
    next_id := 12 }

/-- A re-nomination form naming person 4 as beneficiary. -/
def demo_nominate_payload : NominatePayload :=
  { person_id := some 4 }

/-- The state `nominate_contract_beneficiary` commits on
`demo_created_state` for contract 10 with `demo_nominate_payload`: the new
open beneficiary row plus the BENEFICIARIO audit entries. -/
def demo_nominated_state : DBState :=
  { sepulturas := [⟨1, .OCUPADA⟩]
    persons := [⟨4, "Ana", "Prat", some "11111111A"⟩]
    contratos := [demo_created_contract]
    ownership_records := [⟨11, 10, 4, ⟨2024, 1, 1⟩, none, false, none, false, none⟩]
    beneficiarios := [⟨12, 10, 4, ⟨2026, 10, 12⟩, none⟩]
    cases := []
    tickets := []
    invoices := []
    payments := []
    contract_events := [⟨10, none, "BENEFICIARIO"⟩]
    movimientos := [⟨1, .CONTRATO⟩, ⟨1, MovimientoTipo.BENEFICIARIO⟩]
    pensionista_discount_pct := 1000
    next_id := 13 }

/-- An APPROVED MORTIS_CAUSA_CON_BENEFICIARIO transfer case on contract 2
with an empty checklist and no parties (in particular no NUEVO_TITULAR
party). -/
def demo_mortis_case : OwnershipTransferCase :=
  { id := 5, contract_id := 2,
    type := OwnershipTransferType.MORTIS_CAUSA_CON_BENEFICIARIO,
    status := .APPROVED, documents := [], parties := [], publications := [],
    rejection_reason := none, resolution_number := none,
    resolution_pdf_path := none, beneficiary_close_decision := none,
    provisional_until := none, closed_at := none }

/-- A state with an occupied grave, an ACTIVO contract, an open titular row
for person 4, an open beneficiary row for person 6 and `demo_mortis_case`. -/
def demo_mortis_state : DBState :=
  { sepulturas := [⟨1, .OCUPADA⟩]
    persons := [⟨4, "Ana", "Prat", some "11111111A"⟩, ⟨6, "Joan", "Prat", none⟩]
    contratos := [⟨2, 1, .CONCESION, ⟨2020, 1, 1⟩, ⟨2045, 1, 1⟩, false, 5000,
      "ACTIVO"⟩]
    ownership_records := [⟨3, 2, 4, ⟨2020, 1, 1⟩, none, false, none, false, none⟩]
    beneficiarios := [⟨7, 2, 6, ⟨2020, 1, 1⟩, none⟩]
    cases := [demo_mortis_case]
    tickets := []
    invoices := []
    payments := []
    contract_events := []
    movimientos := []
    pensionista_discount_pct := 1000
    next_id := 20 }

/-- A closing form that keeps the current beneficiary. -/
def demo_close_payload : ClosePayload :=
  { beneficiary_close_decision := "KEEP" }

/-- `demo_mortis_case` with the NUEVO_TITULAR party (person 6) informed. -/
def demo_mortis_party_case : OwnershipTransferCase :=
  { demo_mortis_case with parties := [⟨.NUEVO_TITULAR, 6⟩] }

/-- `demo_mortis_state` with the NUEVO_TITULAR party informed on the
case. -/
def demo_mortis_party_state : DBState :=
  { demo_mortis_state with cases := [demo_mortis_party_case] }

/-- The state `close_ownership_case` commits on `demo_mortis_party_state`
for case 5 with `demo_close_payload` on 2026-10-12: the titular row is
closed, the new open row for the party's person (6) starts today, the case
is CLOSED with the resolution stamped, and the audit entries are
appended. -/
def demo_mortis_closed_state : DBState :=
  { sepulturas := [⟨1, .OCUPADA⟩]
    persons := [⟨4, "Ana", "Prat", some "11111111A"⟩, ⟨6, "Joan", "Prat", none⟩]
    contratos := [⟨2, 1, .CONCESION, ⟨2020, 1, 1⟩, ⟨2045, 1, 1⟩, false, 5000,
      "ACTIVO"⟩]
    ownership_records :=
      [⟨3, 2, 4, ⟨2020, 1, 1⟩, some ⟨2026, 10, 12⟩, false, none, false, none⟩,
       ⟨20, 2, 6, ⟨2026, 10, 12⟩, none, false, none, false, none⟩]
    beneficiarios := [⟨7, 2, 6, ⟨2020, 1, 1⟩, none⟩]
    cases := [⟨5, 2, OwnershipTransferType.MORTIS_CAUSA_CON_BENEFICIARIO,
      .CLOSED, [],
      [⟨.NUEVO_TITULAR, 6⟩], [], none, some "RES-1", some "resolucion.pdf",
      some .KEEP, none, some ⟨2026, 10, 12⟩⟩]
    tickets := []
    invoices := []
    payments := []
    contract_events := [⟨2, some 5, "CAMBIO_TITULARIDAD"⟩]
    movimientos := [⟨1, .CAMBIO_TITULARIDAD⟩]
    pensionista_discount_pct := 1000
    next_id := 21 }

/-! ## The one-open-row-per-contract invariant (spec section 3) -/

/-- The open (`end_date` NULL) titular rows of a contract. -/
def open_titular_rows (s : DBState) (cid : Nat) : List OwnershipRecord :=
  s.ownership_records.filter (fun r =>
    decide (r.contract_id = cid ∧ r.end_date = none))

/-- The open (`activo_hasta` NULL) beneficiary rows of a contract. -/
def open_beneficiario_rows (s : DBState) (cid : Nat) : List Beneficiario :=
  s.beneficiarios.filter (fun b =>
    decide (b.contrato_id = cid ∧ b.activo_hasta = none))

/-- The spec invariant: at most one open ownership row and at most one open
beneficiary row per contract. -/
def one_open_row_per_contract (s : DBState) : Prop :=
  ∀ cid, (open_titular_rows s cid).length ≤ 1 ∧
    (open_beneficiario_rows s cid).length ≤ 1

/-- Every closed row was closed strictly before today (true of every state
produced by operations that ran before today, since they stamp the closing
date with their own `date.today()`). -/
def rows_closed_before (s : DBState) (today : Date) : Prop :=
  (∀ r ∈ s.ownership_records, ∀ d, r.end_date = some d →
    Date.lt d today = true) ∧
  (∀ b ∈ s.beneficiarios, ∀ d, b.activo_hasta = some d →
    Date.lt d today = true)

/-- Every ledger row references a contract id the allocator has already
handed out (the database's foreign-key discipline). -/
def row_refs_bounded (s : DBState) : Prop :=
  (∀ r ∈ s.ownership_records, r.contract_id < s.next_id) ∧
  (∀ b ∈ s.beneficiarios, b.contrato_id < s.next_id)

end Cementerio

namespace Cementerio

/-- C8: `change_sepultura_state` raises `ValueError` whenever the requested
state is `OCUPADA`, raises whenever the current state is `OCUPADA` and the
requested state is `LLIURE`, and in every other combination succeeds and sets
the grave's state to the requested state. -/
theorem c8_change_sepultura_state_restrictions (sep : Sepultura)
    (new_state : SepulturaEstado) :
    (new_state = SepulturaEstado.OCUPADA →
      raisesValueError (change_sepultura_state sep new_state) = true) ∧
    (sep.estado = SepulturaEstado.OCUPADA ∧ new_state = SepulturaEstado.LLIURE →
      raisesValueError (change_sepultura_state sep new_state) = true) ∧
    (¬(new_state = SepulturaEstado.OCUPADA ∨
        (sep.estado = SepulturaEstado.OCUPADA ∧ new_state = SepulturaEstado.LLIURE)) →
      change_sepultura_state sep new_state = .ok { sep with estado := new_state }) := by
  obtain ⟨i, e⟩ := sep
  cases e <;> cases new_state <;> simp [change_sepultura_state, raisesValueError]

/-- The source's `for ticket in ordered: ... else: break` counter is the
length of the leading run of tickets whose ids are selected. -/
theorem selected_run_length_eq_takeWhile (sel : List Nat)
    (l : List TasaMantenimientoTicket) :
    selected_run_length sel l =
      (l.takeWhile (fun t => sel.contains t.id)).length := by
  induction l with
  | nil => rfl
  | cons t rest ih =>
    simp only [selected_run_length, List.takeWhile_cons]
    by_cases h : sel.contains t.id = true
    · rw [if_pos h, if_pos h, List.length_cons, ih]
    · rw [if_neg h, if_neg h]
      rfl

/-- A leading run of `p`-true elements up to index `k`, with the element at
index `k` (when there is one) `p`-false, pins `takeWhile p` to length `k`. -/
theorem takeWhile_length_of_run {α : Type} (p : α → Bool) (l : List α) (k : Nat)
    (hk : k ≤ l.length)
    (htake : ∀ x ∈ l.take k, p x = true)
    (hdrop : ∀ x, (l.drop k).head? = some x → p x = false) :
    (l.takeWhile p).length = k := by
  induction l generalizing k with
  | nil =>
    simp only [List.length_nil, Nat.le_zero] at hk
    simp [hk]
  | cons a rest ih =>
    cases k with
    | zero =>
      have ha : p a = false := hdrop a (by simp)
      simp [List.takeWhile_cons, ha]
    | succ k' =>
      have ha : p a = true := htake a (by simp)
      simp only [List.takeWhile_cons, ha, if_pos, List.length_cons]
      have := ih k' (by simpa using hk)
        (fun x hx => htake x (by simp [hx]))
        (fun x hx => hdrop x (by simpa using hx))
      omega

/-- `List.contains` agrees with membership on `Nat` lists. -/
theorem nat_contains_iff (l : List Nat) (a : Nat) : l.contains a = true ↔ a ∈ l := by
  simp [List.contains, List.elem_iff]

/-- Characterization of a non-raising `validate_oldest_prefix_selection`: the
selection is exactly the ids of the first `k` tickets (some `k ≥ 1`) in
ascending-year order. -/
theorem validate_oldest_ok_iff (tickets : List TasaMantenimientoTicket)
    (sel : List Nat) (hids : (tickets.map (·.id)).Nodup) (hne : sel ≠ []) :
    raisesValueError (validate_oldest_prefix_selection tickets sel) = false ↔
      ∃ k, 1 ≤ k ∧ ∀ x, x ∈ sel ↔
        x ∈ ((List.insertionSort
          (fun a b : TasaMantenimientoTicket => a.anio ≤ b.anio) tickets).take k).map
            (·.id) := by
  have hperm := List.perm_insertionSort
    (fun a b : TasaMantenimientoTicket => a.anio ≤ b.anio) tickets
  set ordered := List.insertionSort
    (fun a b : TasaMantenimientoTicket => a.anio ≤ b.anio) tickets with hord
  have hnod : (ordered.map (·.id)).Nodup := ((hperm.map (·.id)).nodup_iff).mpr hids
  have hmain : eq_as_sets sel
      ((ordered.take (selected_run_length sel ordered)).map (·.id)) = true ↔
      ∃ k, 1 ≤ k ∧ ∀ x, x ∈ sel ↔ x ∈ (ordered.take k).map (·.id) := by
    constructor
    · intro heq
      refine ⟨selected_run_length sel ordered, ?_, ?_⟩
      · by_contra hlt
        have hzero : selected_run_length sel ordered = 0 := by omega
        rw [hzero] at heq
        simp only [eq_as_sets, List.take_zero, List.map_nil, Bool.and_eq_true,
          List.all_eq_true] at heq
        obtain ⟨x, hx⟩ := List.exists_mem_of_ne_nil sel hne
        have := heq.1 x hx
        simp [List.contains] at this
      · intro x
        simp only [eq_as_sets, Bool.and_eq_true, List.all_eq_true] at heq
        constructor
        · intro hx
          exact (nat_contains_iff _ _).mp (heq.1 x hx)
        · intro hx
          exact (nat_contains_iff _ _).mp (heq.2 x hx)
    · rintro ⟨k, hk1, hset⟩
      -- normalise k to at most the length of the list
      obtain ⟨m, hm1, hmlen, hmtake⟩ :
          ∃ m, 1 ≤ m ∧ m ≤ ordered.length ∧ ordered.take m = ordered.take k := by
        by_cases hlen : k ≤ ordered.length
        · exact ⟨k, hk1, hlen, rfl⟩
        · refine ⟨ordered.length, ?_, Nat.le_refl _, ?_⟩
          · rcases Nat.eq_zero_or_pos ordered.length with h0 | hpos
            · exfalso
              have hnil : ordered = [] := List.eq_nil_of_length_eq_zero h0
              obtain ⟨x, hx⟩ := List.exists_mem_of_ne_nil sel hne
              have hmem := (hset x).mp hx
              rw [hnil] at hmem
              simp at hmem
            · exact hpos
          · rw [List.take_length, List.take_of_length_le (by omega)]
      have hrun : selected_run_length sel ordered = m := by
        rw [selected_run_length_eq_takeWhile]
        refine takeWhile_length_of_run _ _ m hmlen ?_ ?_
        · intro x hx
          refine (nat_contains_iff _ _).mpr ((hset x.id).mpr ?_)
          rw [← hmtake]
          exact List.mem_map_of_mem _ hx
        · intro x hx
          by_contra hcon
          simp only [Bool.not_eq_false] at hcon
          have hxs : x.id ∈ sel := (nat_contains_iff _ _).mp hcon
          have hxtake : x.id ∈ (ordered.take m).map (·.id) := by
            rw [hmtake]; exact (hset x.id).mp hxs
          have hxdrop : x.id ∈ (ordered.drop m).map (·.id) :=
            List.mem_map_of_mem _ (List.mem_of_mem_head? hx)
          have : ((ordered.take m).map (·.id) ++ (ordered.drop m).map (·.id)).Nodup := by
            rw [← List.map_append, List.take_append_drop]
            exact hnod
          exact (List.nodup_append.mp this).2.2 hxtake hxdrop
      rw [hrun, hmtake]
      simp only [eq_as_sets, Bool.and_eq_true, List.all_eq_true]
      exact ⟨fun x hx => (nat_contains_iff _ _).mpr ((hset x).mp hx),
        fun x hx => (nat_contains_iff _ _).mpr ((hset x).mpr hx)⟩
  have hval : validate_oldest_prefix_selection tickets sel =
      if eq_as_sets sel
          ((ordered.take (selected_run_length sel ordered)).map (·.id)) then
        Except.ok ()
      else Except.error "Debes cobrar empezando por el año pendiente más antiguo" := by
    unfold validate_oldest_prefix_selection
    rw [if_neg hne]
  rw [hval]
  by_cases hc : eq_as_sets sel
      ((ordered.take (selected_run_length sel ordered)).map (·.id)) = true
  · rw [if_pos hc]
    exact iff_of_true rfl (hmain.mp hc)
  · rw [if_neg hc]
    exact iff_of_false (by simp [raisesValueError]) (fun hex => hc (hmain.mpr hex))

/-- Adding a ticket for one contract does not change the existence check for
a different contract. -/
theorem has_ticket_append_single (s : DBState) (tk : TasaMantenimientoTicket)
    (cid : Nat) (year : Int) (hne : tk.contrato_id ≠ cid) :
    has_ticket_for_year
      { s with tickets := s.tickets ++ [tk], next_id := s.next_id + 1 } cid year =
      has_ticket_for_year s cid year := by
  simp only [has_ticket_for_year, List.any_append, List.any_cons, List.any_nil,
    Bool.or_false]
  have : decide (tk.contrato_id = cid ∧ tk.anio = year) = false := by
    simp [hne]
  rw [this, Bool.or_false]

/-- Unfolding specification of the `generate_maintenance_tickets_for_year`
loop: it appends one PENDIENTE ticket (with the pensioner-discount amount)
per listed contract that has no ticket for the year, counts the others as
existing, and touches nothing else in the state. -/
theorem generate_tickets_go_spec (year : Int) (jan_1 : Date) (pct : Int)
    (contracts : List DerechoFunerarioContrato) (res : TicketGenerationResult)
    (s : DBState) (hnodup : (contracts.map (·.id)).Nodup) :
    ∃ created,
      (generate_tickets_go year jan_1 pct contracts res s).2 =
        { s with tickets := s.tickets ++ created,
                 next_id := s.next_id + created.length } ∧
      (generate_tickets_go year jan_1 pct contracts res s).1.created =
        res.created + created.length ∧
      (generate_tickets_go year jan_1 pct contracts res s).1.existing =
        res.existing +
          (contracts.filter (fun c => has_ticket_for_year s c.id year)).length ∧
      (generate_tickets_go year jan_1 pct contracts res s).1.skipped_non_concession =
        res.skipped_non_concession ∧
      created.map (·.contrato_id) =
        (contracts.filter (fun c => !has_ticket_for_year s c.id year)).map (·.id) ∧
      ∀ t ∈ created, t.anio = year ∧ t.estado = TicketEstado.PENDIENTE ∧
        t.invoice_id = none ∧
        ∀ c ∈ contracts, c.id = t.contrato_id →
          (t.importe, t.descuento_tipo) =
            (if pensionista_applies (active_titular_for_contract_on s c.id jan_1) year
             then (apply_discount c.annual_fee_amount pct, TicketDescuentoTipo.PENSIONISTA)
             else (c.annual_fee_amount, TicketDescuentoTipo.NONE)) := by
  induction contracts generalizing res s with
  | nil =>
    refine ⟨[], ?_, by simp [generate_tickets_go], by simp [generate_tickets_go],
      by simp [generate_tickets_go], by simp, by simp⟩
    simp [generate_tickets_go]
  | cons c rest ih =>
    rw [List.map_cons] at hnodup
    have hnd := List.nodup_cons.mp hnodup
    have hnodup' : (rest.map (·.id)).Nodup := hnd.2
    have hnotmem : c.id ∉ rest.map (·.id) := hnd.1
    by_cases h : has_ticket_for_year s c.id year = true
    · obtain ⟨created, hst, hcr, hex, hsk, hmap, hprops⟩ :=
        ih { res with existing := res.existing + 1 } s hnodup'
      have hstep : generate_tickets_go year jan_1 pct (c :: rest) res s =
          generate_tickets_go year jan_1 pct rest
            { res with existing := res.existing + 1 } s := by
        simp only [generate_tickets_go, h, if_true]
      have hfc : (c :: rest).filter (fun c' => has_ticket_for_year s c'.id year) =
          c :: rest.filter (fun c' => has_ticket_for_year s c'.id year) := by
        simp [List.filter_cons, h]
      refine ⟨created, ?_, ?_, ?_, ?_, ?_, ?_⟩
      · rw [hstep, hst]
      · rw [hstep, hcr]
      · rw [hstep, hex, hfc, List.length_cons]
        show res.existing + 1 + _ = _
        omega
      · rw [hstep, hsk]
      · rw [hmap]
        simp [List.filter_cons, h]
      · intro t ht
        obtain ⟨h1, h2, h3, h4⟩ := hprops t ht
        refine ⟨h1, h2, h3, ?_⟩
        intro c' hc' hcid
        rcases List.mem_cons.mp hc' with rfl | hmem
        · exfalso
          have hmm : t.contrato_id ∈ created.map (·.contrato_id) :=
            List.mem_map_of_mem _ ht
          rw [hmap] at hmm
          obtain ⟨t', ht', hid⟩ := List.mem_map.mp hmm
          refine hnotmem ?_
          rw [hcid, ← hid]
          exact List.mem_map_of_mem _ (List.mem_filter.mp ht').1
        · exact h4 c' hmem hcid
    · have h' : has_ticket_for_year s c.id year = false := by
        revert h; cases has_ticket_for_year s c.id year <;> simp
      obtain ⟨created, hst, hcr, hex, hsk, hmap, hprops⟩ :=
        ih { res with created := res.created + 1 }
          { s with
            tickets := s.tickets ++ [mk_maintenance_ticket s c year jan_1 pct],
            next_id := s.next_id + 1 } hnodup'
      have hstep : generate_tickets_go year jan_1 pct (c :: rest) res s =
          generate_tickets_go year jan_1 pct rest
            { res with created := res.created + 1 }
            { s with
              tickets := s.tickets ++ [mk_maintenance_ticket s c year jan_1 pct],
              next_id := s.next_id + 1 } := by
        simp only [generate_tickets_go, h', Bool.false_eq_true, if_false]
      have hcong : ∀ c' ∈ rest,
          has_ticket_for_year
            { s with
              tickets := s.tickets ++ [mk_maintenance_ticket s c year jan_1 pct],
              next_id := s.next_id + 1 } c'.id year =
            has_ticket_for_year s c'.id year := by
        intro c' hc'
        refine has_ticket_append_single s _ c'.id year ?_
        intro hcontra
        refine hnotmem ?_
        rw [show c.id = c'.id from hcontra]
        exact List.mem_map_of_mem _ hc'
      have hfiltcong : rest.filter (fun c' =>
          has_ticket_for_year
            { s with
              tickets := s.tickets ++ [mk_maintenance_ticket s c year jan_1 pct],
              next_id := s.next_id + 1 } c'.id year) =
          rest.filter (fun c' => has_ticket_for_year s c'.id year) :=
        List.filter_congr hcong
      have hfiltcong' : rest.filter (fun c' =>
          !has_ticket_for_year
            { s with
              tickets := s.tickets ++ [mk_maintenance_ticket s c year jan_1 pct],
              next_id := s.next_id + 1 } c'.id year) =
          rest.filter (fun c' => !has_ticket_for_year s c'.id year) :=
        List.filter_congr (fun c' hc' => by simp only [hcong c' hc'])
      rw [hfiltcong] at hex
      rw [hfiltcong'] at hmap
      refine ⟨mk_maintenance_ticket s c year jan_1 pct :: created, ?_, ?_, ?_, ?_, ?_, ?_⟩
      · rw [hstep, hst]
        simp only [List.append_assoc, List.singleton_append, List.length_cons]
        congr 1
        omega
      · rw [hstep, hcr, List.length_cons]
        show res.created + 1 + _ = _
        omega
      · rw [hstep, hex]
        rw [show (c :: rest).filter (fun c' => has_ticket_for_year s c'.id year) =
          rest.filter (fun c' => has_ticket_for_year s c'.id year) from by
            simp [List.filter_cons, h']]
      · rw [hstep, hsk]
      · rw [List.map_cons, hmap]
        rw [show (c :: rest).filter (fun c' => !has_ticket_for_year s c'.id year) =
          c :: rest.filter (fun c' => !has_ticket_for_year s c'.id year) from by
            simp [List.filter_cons, h']]
        rfl
      · intro t ht
        rcases List.mem_cons.mp ht with rfl | hmem
        · refine ⟨rfl, rfl, rfl, ?_⟩
          intro c' hc' hcid
          rcases List.mem_cons.mp hc' with rfl | hmem'
          · by_cases hp : pensionista_applies
                (active_titular_for_contract_on s c'.id jan_1) year = true <;>
              simp [mk_maintenance_ticket, hp]
          · exfalso
            refine hnotmem ?_
            rw [show c.id = c'.id from hcid ▸ rfl]
            exact List.mem_map_of_mem _ hmem'
        · obtain ⟨h1, h2, h3, h4⟩ := hprops t hmem
          refine ⟨h1, h2, h3, ?_⟩
          intro c' hc' hcid
          rcases List.mem_cons.mp hc' with rfl | hmem'
          · exfalso
            have hmm : t.contrato_id ∈ created.map (·.contrato_id) :=
              List.mem_map_of_mem _ hmem
            rw [hmap] at hmm
            obtain ⟨t', ht', hid⟩ := List.mem_map.mp hmm
            refine hnotmem ?_
            rw [hcid, ← hid]
            exact List.mem_map_of_mem _ (List.mem_filter.mp ht').1
          · have h4' := h4 c' hmem' hcid
            rw [show active_titular_for_contract_on
                { s with
                  tickets := s.tickets ++ [mk_maintenance_ticket s c year jan_1 pct],
                  next_id := s.next_id + 1 } c'.id jan_1 =
                active_titular_for_contract_on s c'.id jan_1 from rfl] at h4'
            exact h4'

/-- Counting tickets of one contract: filtering by contract id has the same
length as counting the id among the mapped contract ids. -/
theorem length_filter_contrato_eq_count (l : List TasaMantenimientoTicket)
    (cid : Nat) :
    (l.filter (fun t => decide (t.contrato_id = cid))).length =
      List.count cid (l.map (·.contrato_id)) := by
  induction l with
  | nil => rfl
  | cons t rest ih =>
    simp only [List.filter_cons, List.map_cons, List.count_cons]
    by_cases h : t.contrato_id = cid
    · simp [h, ih]
    · simp [h, ih]

/-- The ids of the eligible contracts (and of any filtering of them) are
distinct when the contract ids are. -/
theorem eligible_contracts_ids_nodup (s : DBState) (year : Int)
    (hc : (s.contratos.map (·.id)).Nodup) :
    ((eligible_contracts s year).map (·.id)).Nodup := by
  have h1 : ((s.contratos.filter (contract_eligible_on s ⟨year, 1, 1⟩)).map
      (·.id)).Nodup :=
    ((List.filter_sublist _).map _).nodup hc
  exact ((List.perm_insertionSort _ _).map _).nodup_iff.mpr h1

/-- C5: one generation run creates exactly one PENDIENTE ticket for each
eligible contract (ACTIVO, CONCESION, in force on 1 January, grave not
PROPIA) that has no ticket for the year yet, with the annual fee reduced by
the pensioner discount exactly when the titular active on 1 January is a
pensioner whose pensioner-since year is at most the ticket year; a second
run for the same year creates nothing, counts every eligible contract as
existing and leaves the state unchanged. -/
theorem c5_maintenance_ticket_generation (s : DBState) (year : Int)
    (hc : (s.contratos.map (·.id)).Nodup) :
    (∃ created,
      (generate_maintenance_tickets_for_year s year).2 =
        { s with tickets := s.tickets ++ created,
                 next_id := s.next_id + created.length } ∧
      (generate_maintenance_tickets_for_year s year).1.created = created.length ∧
      (generate_maintenance_tickets_for_year s year).1.existing =
        ((eligible_contracts s year).filter
          (fun c => has_ticket_for_year s c.id year)).length ∧
      created.map (·.contrato_id) =
        ((eligible_contracts s year).filter
          (fun c => !has_ticket_for_year s c.id year)).map (·.id) ∧
      ∀ t ∈ created, t.anio = year ∧ t.estado = TicketEstado.PENDIENTE ∧
        t.invoice_id = none ∧
        ∀ c ∈ eligible_contracts s year, c.id = t.contrato_id →
          (t.importe, t.descuento_tipo) =
            (if pensionista_applies
                (active_titular_for_contract_on s c.id ⟨year, 1, 1⟩) year
             then (apply_discount c.annual_fee_amount s.pensionista_discount_pct,
               TicketDescuentoTipo.PENSIONISTA)
             else (c.annual_fee_amount, TicketDescuentoTipo.NONE))) ∧
    (∀ c ∈ s.contratos, contract_eligible_on s ⟨year, 1, 1⟩ c = true →
      has_ticket_for_year s c.id year = false →
      ((generate_maintenance_tickets_for_year s year).2.tickets.filter
        (fun t => decide (t.contrato_id = c.id ∧ t.anio = year))).length = 1) ∧
    (generate_maintenance_tickets_for_year
      (generate_maintenance_tickets_for_year s year).2 year).1.created = 0 ∧
    (generate_maintenance_tickets_for_year
      (generate_maintenance_tickets_for_year s year).2 year).1.existing =
      (eligible_contracts s year).length ∧
    (generate_maintenance_tickets_for_year
      (generate_maintenance_tickets_for_year s year).2 year).2 =
      (generate_maintenance_tickets_for_year s year).2 := by
  have hne := eligible_contracts_ids_nodup s year hc
  obtain ⟨created, hst, hcr, hex, hsk, hmap, hprops⟩ :=
    generate_tickets_go_spec year ⟨year, 1, 1⟩ s.pensionista_discount_pct
      (eligible_contracts s year) ⟨0, 0, 0⟩ s hne
  have hgen : generate_maintenance_tickets_for_year s year =
      generate_tickets_go year ⟨year, 1, 1⟩ s.pensionista_discount_pct
        (eligible_contracts s year) ⟨0, 0, 0⟩ s := rfl
  rw [← hgen] at hst hcr hex hsk
  -- one existing ticket of the run covers each eligible contract afterwards
  have hcover : ∀ c ∈ eligible_contracts s year,
      has_ticket_for_year
        { s with tickets := s.tickets ++ created,
                 next_id := s.next_id + created.length } c.id year = true := by
    intro c hcm
    by_cases hcase : has_ticket_for_year s c.id year = true
    · simp only [has_ticket_for_year] at hcase ⊢
      obtain ⟨t, ht, hp⟩ := List.any_eq_true.mp hcase
      exact List.any_eq_true.mpr ⟨t, by simp [ht], hp⟩
    · have hcase' : has_ticket_for_year s c.id year = false := by
        revert hcase; cases has_ticket_for_year s c.id year <;> simp
      have hcf : c ∈ (eligible_contracts s year).filter
          (fun c' => !has_ticket_for_year s c'.id year) :=
        List.mem_filter.mpr ⟨hcm, by simp [hcase']⟩
      have hcid : c.id ∈ created.map (·.contrato_id) := by
        rw [hmap]
        exact List.mem_map_of_mem _ hcf
      obtain ⟨t, htc, htid⟩ := List.mem_map.mp hcid
      have hanio := (hprops t htc).1
      simp only [has_ticket_for_year]
      refine (List.any_eq_true).mpr ⟨t, ?_, ?_⟩
      · simp [List.mem_append, htc]
      · simp [htid, hanio]
  refine ⟨⟨created, hst, by simpa using hcr, ?_, hmap, hprops⟩, ?_, ?_⟩
  · simpa using hex
  · -- exactly one ticket for a freshly covered contract
    intro c hcm helig hnotick
    have hmem_elig : c ∈ eligible_contracts s year :=
      ((List.perm_insertionSort _ _).mem_iff).mpr (List.mem_filter.mpr ⟨hcm, helig⟩)
    have htickets : (generate_maintenance_tickets_for_year s year).2.tickets =
        s.tickets ++ created := by
      rw [hst]
    rw [htickets, List.filter_append, List.length_append]
    have hold : (s.tickets.filter
        (fun t => decide (t.contrato_id = c.id ∧ t.anio = year))).length = 0 := by
      rw [List.length_eq_zero]
      rw [List.filter_eq_nil_iff]
      intro t ht
      have := (List.any_eq_false.mp hnotick) t ht
      simpa using this
    have hnewpred : created.filter
        (fun t => decide (t.contrato_id = c.id ∧ t.anio = year)) =
        created.filter (fun t => decide (t.contrato_id = c.id)) := by
      refine List.filter_congr ?_
      intro t ht
      simp [(hprops t ht).1]
    have hnd2 : (((eligible_contracts s year).filter
        (fun c' => !has_ticket_for_year s c'.id year)).map (·.id)).Nodup :=
      ((List.filter_sublist _).map _).nodup hne
    have hcf : c ∈ (eligible_contracts s year).filter
        (fun c' => !has_ticket_for_year s c'.id year) :=
      List.mem_filter.mpr ⟨hmem_elig, by simp [hnotick]⟩
    have hone : List.count c.id (created.map (·.contrato_id)) = 1 := by
      rw [hmap]
      exact List.count_eq_one_of_mem hnd2 (List.mem_map_of_mem _ hcf)
    rw [hold, hnewpred, length_filter_contrato_eq_count, hone]
  · -- second run: everything already exists
    have hLit : (generate_maintenance_tickets_for_year s year).2 =
        { s with tickets := s.tickets ++ created,
                 next_id := s.next_id + created.length } := hst
    rw [hLit]
    have helig2 : eligible_contracts
        { s with tickets := s.tickets ++ created,
                 next_id := s.next_id + created.length } year =
        eligible_contracts s year := rfl
    have hne2 : ((eligible_contracts
        { s with tickets := s.tickets ++ created,
                 next_id := s.next_id + created.length } year).map (·.id)).Nodup := by
      rw [helig2]; exact hne
    obtain ⟨created2, hst2, hcr2, hex2, hsk2, hmap2, hprops2⟩ :=
      generate_tickets_go_spec year ⟨year, 1, 1⟩
        ({ s with tickets := s.tickets ++ created,
                  next_id := s.next_id + created.length } :
          DBState).pensionista_discount_pct
        (eligible_contracts
          { s with tickets := s.tickets ++ created,
                   next_id := s.next_id + created.length } year)
        ⟨0, 0, 0⟩
        { s with tickets := s.tickets ++ created,
                 next_id := s.next_id + created.length } hne2
    have hgen2 : generate_maintenance_tickets_for_year
        { s with tickets := s.tickets ++ created,
                 next_id := s.next_id + created.length } year =
        generate_tickets_go year ⟨year, 1, 1⟩
          ({ s with tickets := s.tickets ++ created,
                    next_id := s.next_id + created.length } :
            DBState).pensionista_discount_pct
          (eligible_contracts
            { s with tickets := s.tickets ++ created,
                     next_id := s.next_id + created.length } year)
          ⟨0, 0, 0⟩
          { s with tickets := s.tickets ++ created,
                   next_id := s.next_id + created.length } := rfl
    have hfilt_all : (eligible_contracts
        { s with tickets := s.tickets ++ created,
                 next_id := s.next_id + created.length } year).filter
        (fun c => has_ticket_for_year
          { s with tickets := s.tickets ++ created,
                   next_id := s.next_id + created.length } c.id year) =
        eligible_contracts
          { s with tickets := s.tickets ++ created,
                   next_id := s.next_id + created.length } year := by
      rw [List.filter_eq_self]
      intro c hcmem
      rw [helig2] at hcmem
      exact hcover c hcmem
    have hfilt_none : (eligible_contracts
        { s with tickets := s.tickets ++ created,
                 next_id := s.next_id + created.length } year).filter
        (fun c => !has_ticket_for_year
          { s with tickets := s.tickets ++ created,
                   next_id := s.next_id + created.length } c.id year) = [] := by
      rw [List.filter_eq_nil_iff]
      intro c hcmem
      rw [helig2] at hcmem
      simp [hcover c hcmem]
    have hc2nil : created2 = [] := by
      have := hmap2
      rw [hfilt_none] at this
      simp only [List.map_nil] at this
      exact List.map_eq_nil_iff.mp this
    refine ⟨?_, ?_, ?_⟩
    · rw [hgen2, hcr2, hc2nil]
      rfl
    · rw [hgen2, hex2, hfilt_all, helig2]
      simp
    · rw [hgen2, hst2, hc2nil]
      simp

/-- Replacing the found row by one with the same id is what a later
`find?` for that id sees. -/
theorem find_map_update (l : List OwnershipTransferCase) (cid : Nat)
    (c c' : OwnershipTransferCase)
    (h : l.find? (fun x => decide (x.id = cid)) = some c) (hid : c'.id = c.id) :
    (l.map (fun x => if x.id = c'.id then c' else x)).find?
      (fun x => decide (x.id = cid)) = some c' := by
  have hcid : c.id = cid := by simpa using List.find?_some h
  induction l with
  | nil => simp at h
  | cons a rest ih =>
    by_cases ha : a.id = cid
    · rw [List.find?_cons_of_pos _ (by simpa using ha)] at h
      have hac : a = c := Option.some.inj h
      rw [List.map_cons]
      rw [if_pos (by rw [hac, hid])]
      exact List.find?_cons_of_pos _ (by simpa using hid.trans hcid)
    · rw [List.find?_cons_of_neg _ (by simpa using ha)] at h
      rw [List.map_cons]
      rw [if_neg (fun hcontra => ha (by rw [hcontra, hid, hcid]))]
      rw [List.find?_cons_of_neg _ (by simpa using ha)]
      exact ih h

/-- `case_status_in` after `update_case` with a row of the same id. -/
theorem case_status_in_update (s : DBState) (case_id : Nat)
    (c c' : OwnershipTransferCase)
    (h : s.cases.find? (fun x => decide (x.id = case_id)) = some c)
    (hid : c'.id = c.id) :
    case_status_in (update_case s c') case_id = some c'.status := by
  unfold case_status_in update_case
  rw [show ({ s with cases := s.cases.map (fun x => if x.id = c'.id then c' else x) } :
    DBState).cases = s.cases.map (fun x => if x.id = c'.id then c' else x) from rfl]
  rw [find_map_update s.cases case_id c c' h hid]
  rfl

/-- A successful `get_case_or_404` is a successful `find?`. -/
theorem get_case_ok_find (s : DBState) (case_id : Nat) (c : OwnershipTransferCase)
    (h : get_case_or_404 s case_id = .ok c) :
    s.cases.find? (fun x => decide (x.id = case_id)) = some c := by
  unfold get_case_or_404 at h
  cases hf : s.cases.find? (fun x => decide (x.id = case_id)) with
  | none => rw [hf] at h; exact absurd h (by simp)
  | some c0 =>
    rw [hf] at h
    rw [Except.ok.injEq] at h
    rw [← h]

/-- `ensure_resolution_pdf` only touches the resolution fields. -/
theorem ensure_resolution_pdf_fields (s : DBState) (c : OwnershipTransferCase) :
    (ensure_resolution_pdf s c).id = c.id ∧
    (ensure_resolution_pdf s c).contract_id = c.contract_id ∧
    (ensure_resolution_pdf s c).type = c.type ∧
    (ensure_resolution_pdf s c).status = c.status ∧
    (ensure_resolution_pdf s c).documents = c.documents ∧
    (ensure_resolution_pdf s c).parties = c.parties ∧
    (ensure_resolution_pdf s c).publications = c.publications ∧
    (ensure_resolution_pdf s c).closed_at = c.closed_at := by
  unfold ensure_resolution_pdf
  by_cases h : c.resolution_number = none <;> simp [h]

/-- `close_preload_new_holder` does not change the case status (nor its id,
contract or type). -/
theorem close_preload_fields (s : DBState) (c c' : OwnershipTransferCase)
    (today : Date) (h : close_preload_new_holder s c today = .ok c') :
    c'.status = c.status ∧ c'.id = c.id ∧ c'.contract_id = c.contract_id ∧
    c'.type = c.type ∧ c'.documents = c.documents ∧
    c'.publications = c.publications := by
  unfold close_preload_new_holder at h
  split at h
  · split at h
    · rw [Except.ok.injEq] at h
      subst h
      exact ⟨rfl, rfl, rfl, rfl, rfl, rfl⟩
    · split at h
      · exact absurd h (by simp)
      · rw [Except.ok.injEq] at h
        subst h
        exact ⟨rfl, rfl, rfl, rfl, rfl, rfl⟩
  · rw [Except.ok.injEq] at h
    subst h
    exact ⟨rfl, rfl, rfl, rfl, rfl, rfl⟩

/-- When the case already has its NUEVO_TITULAR party, the
MORTIS_CAUSA_CON_BENEFICIARIO preload is the identity. -/
theorem close_preload_of_party (s : DBState) (c : OwnershipTransferCase)
    (today : Date) (party : OwnershipTransferParty)
    (hparty : case_party c OwnershipPartyRole.NUEVO_TITULAR = some party) :
    close_preload_new_holder s c today = .ok c := by
  unfold close_preload_new_holder
  split
  · rw [hparty]
  · rfl

/-- Specification of `close_finish`: it stamps `closed_at`, writes the case
back, appends the CAMBIO_TITULARIDAD movement and contract event, and
touches no ownership or beneficiary rows. -/
theorem close_finish_spec (s : DBState) (c : OwnershipTransferCase) (today : Date)
    (s' : DBState) (h : close_finish s c today = .ok s') :
    ∃ c' contract,
      c'.id = c.id ∧ c'.status = c.status ∧ c'.closed_at = some today ∧
      s'.cases = s.cases.map (fun x => if x.id = c'.id then c' else x) ∧
      s'.ownership_records = s.ownership_records ∧
      s'.beneficiarios = s.beneficiarios ∧
      s.contratos.find? (fun ct => decide (ct.id = c.contract_id)) = some contract ∧
      s'.movimientos = s.movimientos ++
        [⟨contract.sepultura_id, MovimientoTipo.CAMBIO_TITULARIDAD⟩] ∧
      s'.contract_events = s.contract_events ++
        [⟨c.contract_id, some c.id, "CAMBIO_TITULARIDAD"⟩] := by
  unfold close_finish at h
  split at h
  · exact absurd h (by simp)
  · rename_i contract hfound
    rw [Except.ok.injEq] at h
    subst h
    refine ⟨_, contract, ?_, ?_, ?_, rfl, rfl, rfl, hfound, rfl, rfl⟩
    · by_cases hp : ({ c with closed_at := some today} :
          OwnershipTransferCase).resolution_pdf_path = none
      · rw [if_pos hp]
        exact (ensure_resolution_pdf_fields s _).1
      · rw [if_neg hp]
    · by_cases hp : ({ c with closed_at := some today} :
          OwnershipTransferCase).resolution_pdf_path = none
      · rw [if_pos hp]
        exact (ensure_resolution_pdf_fields s _).2.2.2.1
      · rw [if_neg hp]
    · by_cases hp : ({ c with closed_at := some today} :
          OwnershipTransferCase).resolution_pdf_path = none
      · rw [if_pos hp]
        exact (ensure_resolution_pdf_fields s _).2.2.2.2.2.2.2
      · rw [if_neg hp]

/-- The titular-closing step touches only the ownership rows. -/
theorem close_titular_records_frame (s : DBState) (c : OwnershipTransferCase)
    (today : Date) :
    (close_titular_records s c today).cases = s.cases ∧
    (close_titular_records s c today).beneficiarios = s.beneficiarios ∧
    (close_titular_records s c today).contratos = s.contratos ∧
    (close_titular_records s c today).next_id = s.next_id ∧
    (close_titular_records s c today).movimientos = s.movimientos ∧
    (close_titular_records s c today).contract_events = s.contract_events := by
  unfold close_titular_records
  cases active_titular_for_contract s today c.contract_id <;>
    exact ⟨rfl, rfl, rfl, rfl, rfl, rfl⟩

/-- The REPLACE beneficiary step touches only the beneficiary rows and the
id allocator. -/
theorem close_replace_beneficiary_rows_frame (s : DBState)
    (c : OwnershipTransferCase) (ab : Option Beneficiario) (p : Person)
    (today : Date) :
    (close_replace_beneficiary_rows s c ab p today).cases = s.cases ∧
    (close_replace_beneficiary_rows s c ab p today).ownership_records =
      s.ownership_records ∧
    (close_replace_beneficiary_rows s c ab p today).contratos = s.contratos ∧
    (close_replace_beneficiary_rows s c ab p today).movimientos =
      s.movimientos ∧
    (close_replace_beneficiary_rows s c ab p today).contract_events =
      s.contract_events := by
  unfold close_replace_beneficiary_rows
  cases ab <;> exact ⟨rfl, rfl, rfl, rfl, rfl⟩

/-- `create_or_reuse_person` touches only the person rows and the id
allocator. -/
theorem create_or_reuse_person_frame (s : DBState) (f l : String)
    (d : Option String) (p : Person) (s' : DBState)
    (h : create_or_reuse_person s f l d = .ok (p, s')) :
    s'.cases = s.cases ∧ s'.ownership_records = s.ownership_records ∧
    s'.beneficiarios = s.beneficiarios ∧ s'.contratos = s.contratos ∧
    s'.sepulturas = s.sepulturas ∧ s'.movimientos = s.movimientos ∧
    s'.contract_events = s.contract_events ∧
    s.next_id ≤ s'.next_id := by
  simp only [create_or_reuse_person] at h
  split at h
  · exact absurd h (by simp)
  · split at h
    · rw [Except.ok.injEq, Prod.mk.injEq] at h
      rw [← h.2]
      exact ⟨rfl, rfl, rfl, rfl, rfl, rfl, rfl, Nat.le_refl _⟩
    · rw [Except.ok.injEq, Prod.mk.injEq] at h
      rw [← h.2]
      exact ⟨rfl, rfl, rfl, rfl, rfl, rfl, rfl, Nat.le_succ _⟩

/-- `close_resolve_beneficiary_person` touches only the person rows and the
id allocator. -/
theorem close_resolve_beneficiary_person_frame (s : DBState)
    (payload : ClosePayload) (p : Person) (s' : DBState)
    (h : close_resolve_beneficiary_person s payload = .ok (p, s')) :
    s'.cases = s.cases ∧ s'.ownership_records = s.ownership_records ∧
    s'.beneficiarios = s.beneficiarios ∧ s'.contratos = s.contratos ∧
    s.next_id ≤ s'.next_id ∧ s'.movimientos = s.movimientos ∧
    s'.contract_events = s.contract_events := by
  unfold close_resolve_beneficiary_person at h
  split at h
  · cases hp : person_by_org s _ with
    | error e => rw [hp] at h; exact absurd h (by simp [Except.map])
    | ok q =>
      rw [hp] at h
      simp only [Except.map, Except.ok.injEq, Prod.mk.injEq] at h
      rw [← h.2]
      exact ⟨rfl, rfl, rfl, rfl, Nat.le_refl _, rfl, rfl⟩
  · obtain ⟨h1, h2, h3, h4, _, h6, h7, h8⟩ := create_or_reuse_person_frame _ _ _ _ _ _ h
    exact ⟨h1, h2, h3, h4, h8, h6, h7⟩

/-- What a successful `create_contract_rows` commits: the returned ACTIVO
contract row, the OCUPADA grave update and CONTRATO movement of the
`after_insert` hook, the open titular row, and at most one open beneficiary
row. -/
theorem create_contract_rows_spec (s : DBState) (sep : Sepultura)
    (tipo : DerechoTipo) (fi ff : Date) (fee : Int) (titular : Person)
    (payload : CreateContractPayload) (c : DerechoFunerarioContrato) (s' : DBState)
    (h : create_contract_rows s sep tipo fi ff fee titular payload = .ok (c, s')) :
    c = mk_contrato s sep tipo fi ff fee payload ∧
    s'.contratos = s.contratos ++ [c] ∧
    s'.sepulturas = s.sepulturas.map (fun sp =>
      if sp.id = c.sepultura_id then { sp with estado := SepulturaEstado.OCUPADA }
      else sp) ∧
    s'.movimientos = s.movimientos ++ [⟨c.sepultura_id, MovimientoTipo.CONTRATO⟩] ∧
    (∃ rec, s'.ownership_records = s.ownership_records ++ [rec] ∧
      rec.contract_id = c.id ∧ rec.person_id = titular.id ∧
      rec.start_date = fi ∧ rec.end_date = none) ∧
    (∃ bs, s'.beneficiarios = s.beneficiarios ++ bs ∧ bs.length ≤ 1 ∧
      ∀ b ∈ bs, b.contrato_id = c.id ∧ b.activo_desde = fi ∧
        b.activo_hasta = none) := by
  simp only [create_contract_rows] at h
  split at h
  · split at h
    · exact absurd h (by simp)
    · rename_i beneficiario heqp
      rw [Except.ok.injEq, Prod.mk.injEq] at h
      obtain ⟨hc, hs⟩ := h
      subst hc
      subst hs
      refine ⟨rfl, rfl, rfl, rfl,
        ⟨⟨s.next_id + 1, s.next_id, titular.id, fi, none,
          payload.pensionista, payload.pensionista_desde, false, none⟩,
          rfl, rfl, rfl, rfl, rfl⟩,
        ⟨[⟨s.next_id + 2, s.next_id, beneficiario.id, fi, none⟩], rfl,
          Nat.le_refl 1, ?_⟩⟩
      intro b hb
      rw [List.mem_singleton] at hb
      subst hb
      exact ⟨rfl, rfl, rfl⟩
  · split at h
    · rw [Except.ok.injEq, Prod.mk.injEq] at h
      obtain ⟨hc, hs⟩ := h
      subst hc
      subst hs
      refine ⟨rfl, rfl, rfl, rfl,
        ⟨⟨s.next_id + 1, s.next_id, titular.id, fi, none,
          payload.pensionista, payload.pensionista_desde, false, none⟩,
          rfl, rfl, rfl, rfl, rfl⟩,
        ⟨[], (List.append_nil _).symm, Nat.zero_le 1, ?_⟩⟩
      intro b hb
      exact absurd hb (List.not_mem_nil b)
    · split at h
      · exact absurd h (by simp)
      · rename_i beneficiario s3 hres
        rw [Except.ok.injEq, Prod.mk.injEq] at h
        obtain ⟨hc, hs⟩ := h
        subst hc
        subst hs
        obtain ⟨_, h2, h3, h4, h5, h6, _, _⟩ :=
          create_or_reuse_person_frame _ _ _ _ _ _ hres
        refine ⟨rfl, h4.trans rfl, h5.trans rfl, h6.trans rfl,
          ⟨⟨s.next_id + 1, s.next_id, titular.id, fi, none,
            payload.pensionista, payload.pensionista_desde, false, none⟩,
            h2.trans rfl, rfl, rfl, rfl, rfl⟩,
          ⟨[⟨s3.next_id, s.next_id, beneficiario.id, fi, none⟩], ?_,
            Nat.le_refl 1, ?_⟩⟩
        · exact (congrArg (fun l =>
            l ++ [(⟨s3.next_id, s.next_id, beneficiario.id, fi, none⟩ :
              Beneficiario)]) h3).trans rfl
        · intro b hb
          rw [List.mem_singleton] at hb
          subst hb
          exact ⟨rfl, rfl, rfl⟩

/-- After a successful `close_apply`, the written-back case keeps the status
it was passed with and carries `closed_at = today`. -/
theorem close_apply_cases (s : DBState) (c : OwnershipTransferCase)
    (payload : ClosePayload) (today : Date) (s' : DBState)
    (h : close_apply s c payload today = .ok s') (case_id : Nat)
    (c0 : OwnershipTransferCase)
    (hfind : s.cases.find? (fun x => decide (x.id = case_id)) = some c0)
    (hid : c.id = c0.id) :
    case_status_in s' case_id = some c.status ∧
    ∃ c', s'.cases.find? (fun x => decide (x.id = case_id)) = some c' ∧
      c'.status = c.status ∧ c'.closed_at = some today := by
  have hfin : ∀ (smid : DBState) (c4 : OwnershipTransferCase),
      smid.cases = s.cases → c4.id = c.id → c4.status = c.status →
      close_finish smid c4 today = .ok s' →
      case_status_in s' case_id = some c.status ∧
      ∃ c', s'.cases.find? (fun x => decide (x.id = case_id)) = some c' ∧
        c'.status = c.status ∧ c'.closed_at = some today := by
    intro smid c4 hcs h4id h4st hf
    obtain ⟨c', contract, hc'id, hc'st, hc'cl, hcases, _, _, _, _⟩ :=
      close_finish_spec smid c4 today s' hf
    have hfind2 : s'.cases.find? (fun x => decide (x.id = case_id)) = some c' := by
      rw [hcases, hcs]
      exact find_map_update s.cases case_id c0 c' hfind (by rw [hc'id, h4id, hid])
    refine ⟨?_, c', hfind2, by rw [hc'st, h4st], hc'cl⟩
    unfold case_status_in
    rw [hfind2]
    simp [hc'st, h4st]
  have hs2cases : ∀ party,
      (close_insert_record (close_titular_records s c today) c party payload
        today).cases = s.cases := by
    intro party
    exact (close_titular_records_frame s c today).1
  simp only [close_apply] at h
  split at h
  · exact absurd h (by simp)
  · rename_i party hparty
    split at h
    · exact absurd h (by simp)
    · split at h
      · exact hfin _ _ (hs2cases party) rfl rfl h
      · split at h
        · exact absurd h (by simp)
        · split at h
          · split at h
            · exact absurd h (by simp)
            · rename_i p s3 hres
              refine hfin _ _ ?_ ?_ ?_ h
              · rw [(close_replace_beneficiary_rows_frame s3 _ _ _ today).1,
                  (close_resolve_beneficiary_person_frame _ payload p s3 hres).1]
                exact hs2cases party
              · rfl
              · rfl
          · refine hfin _ _ ?_ ?_ ?_ h
            · exact hs2cases party
            · rfl
            · rfl

/-- C1: every status-change request moves along `CASE_STATUS_TRANSITIONS`
only.  For each of the four operations: a success sets the case status to a
target allowed from the current status, and a request whose target is not
allowed raises `ValueError` (so, the transaction never committing, the case
status is unchanged). -/
theorem c1_case_status_transitions (s : DBState) (case_id : Nat)
    (c : OwnershipTransferCase)
    (hfind : get_case_or_404 s case_id = .ok c) :
    (∀ raw s', change_ownership_case_status s case_id raw = .ok s' →
      ∃ ns, parse_transfer_status raw = .ok ns ∧
        ns ∈ CASE_STATUS_TRANSITIONS c.status ∧
        case_status_in s' case_id = some ns) ∧
    (∀ raw ns, parse_transfer_status raw = .ok ns →
      ns ∉ CASE_STATUS_TRANSITIONS c.status →
      raisesValueError (change_ownership_case_status s case_id raw) = true) ∧
    (∀ s', approve_ownership_case s case_id = .ok s' →
      OwnershipTransferStatus.APPROVED ∈ CASE_STATUS_TRANSITIONS c.status ∧
      case_status_in s' case_id = some OwnershipTransferStatus.APPROVED) ∧
    (OwnershipTransferStatus.APPROVED ∉ CASE_STATUS_TRANSITIONS c.status →
      raisesValueError (approve_ownership_case s case_id) = true) ∧
    (∀ reason s', reject_ownership_case s case_id reason = .ok s' →
      OwnershipTransferStatus.REJECTED ∈ CASE_STATUS_TRANSITIONS c.status ∧
      case_status_in s' case_id = some OwnershipTransferStatus.REJECTED) ∧
    (∀ reason, OwnershipTransferStatus.REJECTED ∉ CASE_STATUS_TRANSITIONS c.status →
      raisesValueError (reject_ownership_case s case_id reason) = true) ∧
    (∀ payload today s', close_ownership_case s case_id payload today = .ok s' →
      OwnershipTransferStatus.CLOSED ∈ CASE_STATUS_TRANSITIONS c.status ∧
      case_status_in s' case_id = some OwnershipTransferStatus.CLOSED) ∧
    (∀ payload today,
      OwnershipTransferStatus.CLOSED ∉ CASE_STATUS_TRANSITIONS c.status →
      raisesValueError (close_ownership_case s case_id payload today) = true) := by
  have hfindraw := get_case_ok_find s case_id c hfind
  refine ⟨?_, ?_, ?_, ?_, ?_, ?_, ?_, ?_⟩
  · -- change_ownership_case_status, success direction
    intro raw s' h
    unfold change_ownership_case_status at h
    rw [hfind] at h
    dsimp only at h
    cases hp : parse_transfer_status raw with
    | error e => rw [hp] at h; exact absurd h (by simp)
    | ok ns =>
      rw [hp] at h
      dsimp only at h
      unfold transition_case_status at h
      by_cases hm : ns ∈ CASE_STATUS_TRANSITIONS c.status
      · rw [if_pos hm] at h
        dsimp only at h
        rw [Except.ok.injEq] at h
        subst h
        exact ⟨ns, rfl, hm, case_status_in_update s case_id c _ hfindraw rfl⟩
      · rw [if_neg hm] at h
        exact absurd h (by simp)
  · -- change_ownership_case_status, refused target
    intro raw ns hp hm
    unfold change_ownership_case_status
    rw [hfind, hp]
    dsimp only
    unfold transition_case_status
    rw [if_neg hm]
    rfl
  · -- approve, success direction
    intro s' h
    unfold approve_ownership_case at h
    rw [hfind] at h
    dsimp only at h
    unfold transition_case_status at h
    by_cases hm : OwnershipTransferStatus.APPROVED ∈ CASE_STATUS_TRANSITIONS c.status
    · rw [if_pos hm] at h
      dsimp only at h
      refine ⟨hm, ?_⟩
      split at h
      · exact absurd h (by simp)
      · rw [Except.ok.injEq] at h
        subst h
        refine Eq.trans (case_status_in_update _ case_id c _ hfindraw ?_) ?_
        · exact (ensure_resolution_pdf_fields s _).1
        · exact congrArg some ((ensure_resolution_pdf_fields s _).2.2.2.1)
    · rw [if_neg hm] at h
      exact absurd h (by simp)
  · -- approve, refused target
    intro hm
    unfold approve_ownership_case
    rw [hfind]
    dsimp only
    unfold transition_case_status
    rw [if_neg hm]
    rfl
  · -- reject, success direction
    intro reason s' h
    unfold reject_ownership_case at h
    rw [hfind] at h
    dsimp only at h
    unfold transition_case_status at h
    by_cases hm : OwnershipTransferStatus.REJECTED ∈ CASE_STATUS_TRANSITIONS c.status
    · rw [if_pos hm] at h
      dsimp only at h
      refine ⟨hm, ?_⟩
      split at h
      · exact absurd h (by simp)
      · split at h
        · exact absurd h (by simp)
        · rw [Except.ok.injEq] at h
          subst h
          exact case_status_in_update _ case_id c _ hfindraw rfl
    · rw [if_neg hm] at h
      exact absurd h (by simp)
  · -- reject, refused target
    intro reason hm
    unfold reject_ownership_case
    rw [hfind]
    dsimp only
    unfold transition_case_status
    rw [if_neg hm]
    rfl
  · -- close, success direction
    intro payload today s' h
    unfold close_ownership_case at h
    rw [hfind] at h
    dsimp only at h
    cases hpre : close_preload_new_holder s c today with
    | error e => rw [hpre] at h; exact absurd h (by simp)
    | ok c2 =>
      rw [hpre] at h
      dsimp only at h
      obtain ⟨h2st, h2id, _, _, _, _⟩ := close_preload_fields s c c2 today hpre
      cases hval : validate_case_ready_to_close c2 payload with
      | error e => rw [hval] at h; exact absurd h (by simp)
      | ok u =>
        rw [hval] at h
        dsimp only at h
        have hap : c2.status = OwnershipTransferStatus.APPROVED := by
          unfold validate_case_ready_to_close at hval
          by_cases hcontra : c2.status = OwnershipTransferStatus.APPROVED
          · exact hcontra
          · rw [if_pos hcontra] at hval
            exact absurd hval (by simp)
        have hm : OwnershipTransferStatus.CLOSED ∈ CASE_STATUS_TRANSITIONS c.status := by
          rw [← h2st, hap]
          simp [CASE_STATUS_TRANSITIONS]
        refine ⟨hm, ?_⟩
        unfold transition_case_status at h
        rw [if_pos (by rw [h2st]; exact hm)] at h
        dsimp only at h
        have := close_apply_cases s _ payload today s' h case_id c hfindraw
          (by rw [show ({ c2 with status := OwnershipTransferStatus.CLOSED} :
            OwnershipTransferCase).id = c2.id from rfl, h2id])
        rw [this.1]
  · -- close, refused target
    intro payload today hm
    unfold close_ownership_case
    rw [hfind]
    dsimp only
    cases hpre : close_preload_new_holder s c today with
    | error e => rfl
    | ok c2 =>
      dsimp only
      obtain ⟨h2st, _, _, _, _, _⟩ := close_preload_fields s c c2 today hpre
      have hne : ¬(c2.status = OwnershipTransferStatus.APPROVED) := by
        intro hcontra
        apply hm
        rw [h2st] at hcontra
        rw [hcontra]
        simp [CASE_STATUS_TRANSITIONS]
      unfold validate_case_ready_to_close
      rw [if_pos hne]
      rfl

/-- Witness for C1: on the DRAFT demo case, jumping straight to APPROVED
raises, closing raises, and the allowed DRAFT → DOCS_PENDING change
succeeds and is visible in the stored status. -/
theorem c1_case_status_transitions_witness :
    raisesValueError (change_ownership_case_status demo_case_state 5 "APPROVED") = true ∧
    raisesValueError
      (close_ownership_case demo_case_state 5 ({} : ClosePayload) ⟨2026, 10, 12⟩) = true ∧
    (change_ownership_case_status demo_case_state 5 "DOCS_PENDING").map
      (fun s' => case_status_in s' 5) =
      .ok (some OwnershipTransferStatus.DOCS_PENDING) :=
  ⟨(c1_case_status_transitions demo_case_state 5 demo_case rfl).2.1
      "APPROVED" OwnershipTransferStatus.APPROVED rfl (by decide),
   (c1_case_status_transitions demo_case_state 5 demo_case
      rfl).2.2.2.2.2.2.2 ({} : ClosePayload) ⟨2026, 10, 12⟩ (by decide),
   rfl⟩

/-- Witness for C5: on `demo_billing_state` the first run creates exactly the
discounted 45.00 PENDIENTE ticket for 2026, and by the claim theorem the
second run creates nothing and leaves the state unchanged. -/
theorem c5_maintenance_ticket_generation_witness :
    (generate_maintenance_tickets_for_year demo_billing_state 2026).1.created = 1 ∧
    (generate_maintenance_tickets_for_year demo_billing_state 2026).2.tickets =
      [⟨10, 2, none, 2026, 4500, .PENSIONISTA, .PENDIENTE⟩] ∧
    (generate_maintenance_tickets_for_year
      (generate_maintenance_tickets_for_year demo_billing_state 2026).2 2026).1.created = 0 ∧
    (generate_maintenance_tickets_for_year
      (generate_maintenance_tickets_for_year demo_billing_state 2026).2 2026).2 =
      (generate_maintenance_tickets_for_year demo_billing_state 2026).2 :=
  ⟨by decide, by decide,
   (c5_maintenance_ticket_generation demo_billing_state 2026 (by decide)).2.2.1,
   (c5_maintenance_ticket_generation demo_billing_state 2026 (by decide)).2.2.2.2⟩

/-- C4: maintenance-fee collection is oldest-ticket-first.  An empty
selection always raises; a non-empty selection raises iff it is not exactly
the ids of the first `k` tickets (some `k ≥ 1`) of the pending tickets in
ascending-year order; and `collect_tickets` applies this check, so a
selection that `validate_oldest_prefix_selection` rejects for the grave's
active contract makes `collect_tickets` raise. -/
theorem c4_oldest_first_collection (tickets : List TasaMantenimientoTicket)
    (selected_ids : List Nat) (hids : (tickets.map (·.id)).Nodup) :
    (selected_ids = [] →
      raisesValueError (validate_oldest_prefix_selection tickets selected_ids) = true) ∧
    (selected_ids ≠ [] →
      (raisesValueError (validate_oldest_prefix_selection tickets selected_ids) = true ↔
        ¬ ∃ k, 1 ≤ k ∧ ∀ x, x ∈ selected_ids ↔
          x ∈ ((List.insertionSort
            (fun a b : TasaMantenimientoTicket => a.anio ≤ b.anio) tickets).take k).map
              (·.id))) ∧
    (∀ s sepultura_id method today disc,
      (∀ c, active_contract_for_sepultura s sepultura_id = some c →
        raisesValueError (validate_oldest_prefix_selection
          (pending_tickets_for_contract s c.id) selected_ids) = true) →
      raisesValueError
        (collect_tickets s sepultura_id selected_ids method today disc) = true) := by
  refine ⟨?_, ?_, ?_⟩
  · intro h
    unfold validate_oldest_prefix_selection
    rw [if_pos h]
    rfl
  · intro hne
    have hiff := validate_oldest_ok_iff tickets selected_ids hids hne
    constructor
    · intro htrue hex
      have hfalse := hiff.mpr hex
      rw [htrue] at hfalse
      exact absurd hfalse (by decide)
    · intro hnex
      by_cases hres : raisesValueError
        (validate_oldest_prefix_selection tickets selected_ids) = true
      · exact hres
      · have hfalse : raisesValueError
            (validate_oldest_prefix_selection tickets selected_ids) = false := by
          revert hres
          cases raisesValueError (validate_oldest_prefix_selection tickets selected_ids) <;>
            simp
        exact absurd (hiff.mp hfalse) hnex
  · intro s sepultura_id method today disc h
    unfold collect_tickets
    split
    · rfl
    · split
      · rfl
      · rename_i sep hsep c hc
        have hv := h c hc
        split
        · rfl
        · split
          · rfl
          · rename_i hok
            rw [hok] at hv
            simp [raisesValueError] at hv

/-- Witness for C4: on tickets for years 2024 (id 13) and 2025 (id 14), the
empty selection raises, and selecting only the newer ticket `[14]` is not an
oldest-first prefix. -/
theorem c4_oldest_first_collection_witness :
    raisesValueError (validate_oldest_prefix_selection
      [⟨13, 3, none, 2024, 5000, .NONE, .PENDIENTE⟩,
       ⟨14, 3, none, 2025, 5000, .NONE, .PENDIENTE⟩] []) = true ∧
    ¬ ∃ k, 1 ≤ k ∧ ∀ x, x ∈ [14] ↔
      x ∈ ((List.insertionSort
        (fun a b : TasaMantenimientoTicket => a.anio ≤ b.anio)
        [⟨13, 3, none, 2024, 5000, .NONE, .PENDIENTE⟩,
         ⟨14, 3, none, 2025, 5000, .NONE, .PENDIENTE⟩]).take k).map (·.id) :=
  ⟨(c4_oldest_first_collection
      [⟨13, 3, none, 2024, 5000, .NONE, .PENDIENTE⟩,
       ⟨14, 3, none, 2025, 5000, .NONE, .PENDIENTE⟩] [] (by decide)).1 rfl,
   ((c4_oldest_first_collection
      [⟨13, 3, none, 2024, 5000, .NONE, .PENDIENTE⟩,
       ⟨14, 3, none, 2025, 5000, .NONE, .PENDIENTE⟩] [14] (by decide)).2.1
        (by decide)).mp (by decide)⟩

/-- C10: `generate_invoice_for_tickets` raises `ValueError` for every input
(invoicing separately from payment is disabled under the cash criterion),
and a successful `collect_tickets` creates the invoice already PAGADA
together with a payment of the same amount in the same transaction. -/
theorem c10_cash_criterion_invoicing (sepultura_id : Nat) (selected_ids : List Nat) :
    raisesValueError (generate_invoice_for_tickets sepultura_id selected_ids) = true ∧
    (∀ s sid sel method today disc inv pay s',
      collect_tickets s sid sel method today disc = .ok (inv, pay, s') →
      inv.estado = InvoiceEstado.PAGADA ∧ pay.invoice_id = inv.id ∧
        pay.amount = inv.total_amount ∧ inv ∈ s'.invoices ∧ pay ∈ s'.payments) := by
  refine ⟨rfl, ?_⟩
  intro s sid sel method today disc inv pay s' h
  unfold collect_tickets at h
  split at h
  · exact absurd h (by simp)
  · split at h
    · exact absurd h (by simp)
    · split at h
      · exact absurd h (by simp)
      · split at h
        · exact absurd h (by simp)
        · rw [Except.ok.injEq] at h
          cases h
          refine ⟨rfl, rfl, rfl, ?_, ?_⟩ <;> simp

/-- Witness for C10: the universally quantified second conjunct applied at a
concrete successful collection. -/
theorem c10_cash_criterion_invoicing_witness :
    (collect_tickets
        { sepulturas := [⟨7, .OCUPADA⟩], persons := [],
          contratos := [⟨3, 7, .CONCESION, ⟨2020, 1, 1⟩, ⟨2045, 1, 1⟩, false, 5000, "ACTIVO"⟩],
          ownership_records := [], beneficiarios := [], cases := [],
          tickets := [⟨11, 3, none, 2024, 5000, .NONE, .PENDIENTE⟩],
          invoices := [], payments := [], contract_events := [], movimientos := [],
          pensionista_discount_pct := 1000, next_id := 12 }
        7 [11] "EFECTIVO" ⟨2026, 10, 12⟩ []).isOk = true ∧
    (∀ inv pay s',
      collect_tickets
        { sepulturas := [⟨7, .OCUPADA⟩], persons := [],
          contratos := [⟨3, 7, .CONCESION, ⟨2020, 1, 1⟩, ⟨2045, 1, 1⟩, false, 5000, "ACTIVO"⟩],
          ownership_records := [], beneficiarios := [], cases := [],
          tickets := [⟨11, 3, none, 2024, 5000, .NONE, .PENDIENTE⟩],
          invoices := [], payments := [], contract_events := [], movimientos := [],
          pensionista_discount_pct := 1000, next_id := 12 }
        7 [11] "EFECTIVO" ⟨2026, 10, 12⟩ [] = .ok (inv, pay, s') →
      inv.estado = InvoiceEstado.PAGADA ∧ pay.invoice_id = inv.id ∧
        pay.amount = inv.total_amount ∧ inv ∈ s'.invoices ∧ pay ∈ s'.payments) :=
  ⟨by decide, fun inv pay s' h =>
    (c10_cash_criterion_invoicing 0 []).2 _ _ _ _ _ _ inv pay s' h⟩

/-- Witness for C8 at concrete inputs: requesting `OCUPADA` raises, going
`OCUPADA → LLIURE` raises, and `OCUPADA → DISPONIBLE` succeeds. -/
theorem c8_change_sepultura_state_restrictions_witness :
    raisesValueError (change_sepultura_state ⟨1, .LLIURE⟩ .OCUPADA) = true ∧
    raisesValueError (change_sepultura_state ⟨1, .OCUPADA⟩ .LLIURE) = true ∧
    change_sepultura_state ⟨1, .OCUPADA⟩ .DISPONIBLE = .ok ⟨1, .DISPONIBLE⟩ :=
  ⟨(c8_change_sepultura_state_restrictions ⟨1, .LLIURE⟩ .OCUPADA).1 rfl,
   (c8_change_sepultura_state_restrictions ⟨1, .OCUPADA⟩ .LLIURE).2.1 ⟨rfl, rfl⟩,
   (c8_change_sepultura_state_restrictions ⟨1, .OCUPADA⟩ .DISPONIBLE).2.2 (by simp)⟩

/-- A successful `create_funeral_right_contract` found a DISPONIBLE grave
with the requested id, passed the duration validator at the returned
contract's fields, and committed exactly the contract append, the
`after_insert` grave update and the CONTRATO movement (the titular- and
beneficiary-person resolutions touch no other table). -/
theorem create_funeral_right_contract_spec (s : DBState) (sid : Nat)
    (payload : CreateContractPayload) (c : DerechoFunerarioContrato) (s' : DBState)
    (h : create_funeral_right_contract s sid payload = .ok (c, s')) :
    (∃ sep, s.sepulturas.find? (fun sp => decide (sp.id = sid)) = some sep ∧
      sep.estado = SepulturaEstado.DISPONIBLE ∧ c.sepultura_id = sep.id) ∧
    validate_duration_fields c.tipo c.fecha_inicio c.fecha_fin
      c.legacy_99_years = .ok () ∧
    s'.contratos = s.contratos ++ [c] ∧
    s'.sepulturas = s.sepulturas.map (fun sp =>
      if sp.id = c.sepultura_id then { sp with estado := SepulturaEstado.OCUPADA }
      else sp) ∧
    s'.movimientos = s.movimientos ++ [⟨c.sepultura_id, MovimientoTipo.CONTRATO⟩] ∧
    s.next_id ≤ c.id ∧
    (∃ rec, s'.ownership_records = s.ownership_records ++ [rec] ∧
      rec.contract_id = c.id ∧ rec.end_date = none) ∧
    (∃ bs, s'.beneficiarios = s.beneficiarios ++ bs ∧ bs.length ≤ 1 ∧
      ∀ b ∈ bs, b.contrato_id = c.id ∧ b.activo_hasta = none) := by
  unfold create_funeral_right_contract at h
  split at h
  · exact absurd h (by simp)
  · rename_i sep hsep
    unfold sepultura_by_id at hsep
    split at hsep
    · exact absurd hsep (by simp)
    · rename_i sep0 hfind
      rw [Except.ok.injEq] at hsep
      subst hsep
      split at h
      · exact absurd h (by simp)
      · rename_i hnd
        split at h
        · exact absurd h (by simp)
        · split at h
          · exact absurd h (by simp)
          · rename_i tipo htipo
            split at h
            · exact absurd h (by simp)
            · rename_i fi hfi
              split at h
              · exact absurd h (by simp)
              · rename_i ff hff
                split at h
                · exact absurd h (by simp)
                · rename_i fee hfee
                  split at h
                  · exact absurd h (by simp)
                  · rename_i titular smid htit
                    split at h
                    · exact absurd h (by simp)
                    · rename_i hval
                      obtain ⟨hc, hcs, hseps, hmov, ⟨rec, hrec, hrc, -, -, hre⟩,
                          ⟨bs, hbs, hbl, hbmem⟩⟩ :=
                        create_contract_rows_spec _ _ _ _ _ _ _ _ _ _ h
                      have hframe : smid.contratos = s.contratos ∧
                          smid.sepulturas = s.sepulturas ∧
                          smid.movimientos = s.movimientos ∧
                          smid.ownership_records = s.ownership_records ∧
                          smid.beneficiarios = s.beneficiarios ∧
                          s.next_id ≤ smid.next_id := by
                        split at htit
                        · cases hp : person_by_org s _ with
                          | error e =>
                            rw [hp] at htit
                            exact absurd htit (by simp [Except.map])
                          | ok q =>
                            rw [hp] at htit
                            simp only [Except.map, Except.ok.injEq,
                              Prod.mk.injEq] at htit
                            rw [← htit.2]
                            exact ⟨rfl, rfl, rfl, rfl, rfl, Nat.le_refl _⟩
                        · obtain ⟨-, h2, h3, h4, h5, h6, -, h8⟩ :=
                            create_or_reuse_person_frame _ _ _ _ _ _ htit
                          exact ⟨h4, h5, h6, h2, h3, h8⟩
                      obtain ⟨hcon, hsep', hmov', hown', hben', hnid⟩ := hframe
                      subst hc
                      refine ⟨⟨sep0, hfind, not_not.mp hnd, rfl⟩, hval, ?_, ?_, ?_,
                        hnid, ?_, ?_⟩
                      · rw [hcs, hcon]
                      · rw [hseps, hsep']
                      · rw [hmov, hmov']
                      · exact ⟨rec, by rw [hrec, hown'], hrc, hre⟩
                      · refine ⟨bs, by rw [hbs, hben'], hbl, ?_⟩
                        intro b hb
                        exact ⟨(hbmem b hb).1, (hbmem b hb).2.2⟩

/-- C6: funeral-right contract duration is capped at 25 years for
USO_INMEDIATO, 99 for a legacy 99-year concession and 50 otherwise:
exceeding the cap makes the duration validator raise `ValueError`, and every
contract `create_funeral_right_contract` persists is within its cap. -/
theorem c6_contract_duration_caps :
    (∀ (tipo : DerechoTipo) (fi ff : Date) (legacy : Bool),
      ff.year - fi.year > contract_max_years tipo legacy →
      raisesValueError (validate_duration_fields tipo fi ff legacy) = true) ∧
    (contract_max_years DerechoTipo.USO_INMEDIATO false = 25 ∧
     contract_max_years DerechoTipo.USO_INMEDIATO true = 25 ∧
     contract_max_years DerechoTipo.CONCESION true = 99 ∧
     contract_max_years DerechoTipo.CONCESION false = 50) ∧
    ∀ (s : DBState) (sid : Nat) (payload : CreateContractPayload)
      (c : DerechoFunerarioContrato) (s' : DBState),
      create_funeral_right_contract s sid payload = .ok (c, s') →
      c.fecha_fin.year - c.fecha_inicio.year ≤
        contract_max_years c.tipo c.legacy_99_years ∧ c ∈ s'.contratos := by
  refine ⟨?_, ⟨rfl, rfl, rfl, rfl⟩, ?_⟩
  · intro tipo fi ff legacy hgt
    unfold raisesValueError validate_duration_fields
    rw [if_pos hgt]
  · intro s sid payload c s' h
    obtain ⟨-, hval, hcs, -, -⟩ :=
      create_funeral_right_contract_spec s sid payload c s' h
    constructor
    · unfold validate_duration_fields at hval
      split at hval
      · exact absurd hval (by simp)
      · rename_i hle
        exact not_lt.mp hle
    · rw [hcs]
      exact List.mem_append_right _ (List.mem_singleton.mpr rfl)

/-- Witness for C6: a 26-year USO_INMEDIATO assignment raises, and the
concrete 25-year concession `create_funeral_right_contract` persists on
`demo_create_state` is within its 50-year cap. -/
theorem c6_contract_duration_caps_witness :
    raisesValueError (validate_duration_fields DerechoTipo.USO_INMEDIATO
      ⟨2000, 1, 1⟩ ⟨2026, 1, 1⟩ false) = true ∧
    demo_created_contract.fecha_fin.year - demo_created_contract.fecha_inicio.year ≤
      contract_max_years demo_created_contract.tipo
        demo_created_contract.legacy_99_years ∧
    demo_created_contract ∈ demo_created_state.contratos :=
  ⟨c6_contract_duration_caps.1 DerechoTipo.USO_INMEDIATO ⟨2000, 1, 1⟩
      ⟨2026, 1, 1⟩ false (by decide),
   c6_contract_duration_caps.2.2 demo_create_state 1 demo_create_payload
      demo_created_contract demo_created_state rfl⟩

/-- C9: the `after_insert` hook on `DerechoFunerarioContrato` sets the
contract's grave to OCUPADA and records a CONTRATO movement, so after a
successful `create_funeral_right_contract` (which required the grave to be
DISPONIBLE) the grave is OCUPADA with no manual state change. -/
theorem c9_create_contract_sets_ocupada :
    (∀ (s0 : DBState) (target : DerechoFunerarioContrato),
      (contract_after_insert s0 target).sepulturas = s0.sepulturas.map (fun sp =>
        if sp.id = target.sepultura_id then
          { sp with estado := SepulturaEstado.OCUPADA }
        else sp) ∧
      (contract_after_insert s0 target).movimientos =
        s0.movimientos ++ [⟨target.sepultura_id, MovimientoTipo.CONTRATO⟩]) ∧
    ∀ (s : DBState) (sid : Nat) (payload : CreateContractPayload)
      (c : DerechoFunerarioContrato) (s' : DBState),
      create_funeral_right_contract s sid payload = .ok (c, s') →
      (∃ sp ∈ s.sepulturas, sp.id = sid ∧
        sp.estado = SepulturaEstado.DISPONIBLE) ∧
      (∀ sp ∈ s'.sepulturas, sp.id = sid →
        sp.estado = SepulturaEstado.OCUPADA) ∧
      ⟨sid, MovimientoTipo.CONTRATO⟩ ∈ s'.movimientos := by
  refine ⟨fun s0 target => ⟨rfl, rfl⟩, ?_⟩
  intro s sid payload c s' h
  obtain ⟨⟨sep, hfind, hdisp, hsid⟩, -, -, hseps, hmov, -, -, -⟩ :=
    create_funeral_right_contract_spec s sid payload c s' h
  have hsepid : sep.id = sid := by
    have hd := List.find?_some hfind
    exact of_decide_eq_true hd
  have hcid : c.sepultura_id = sid := hsid.trans hsepid
  refine ⟨⟨sep, List.mem_of_find?_eq_some hfind, hsepid, hdisp⟩, ?_, ?_⟩
  · intro sp hsp hspid
    rw [hseps] at hsp
    obtain ⟨sp0, hsp0, hmap⟩ := List.mem_map.mp hsp
    by_cases hc0 : sp0.id = c.sepultura_id
    · rw [if_pos hc0] at hmap
      rw [← hmap]
    · rw [if_neg hc0] at hmap
      subst hmap
      exact absurd (hspid.trans hcid.symm) hc0
  · rw [hmov, ← hcid]
    exact List.mem_append_right _ (List.mem_singleton.mpr rfl)

/-- Witness for C9 on `demo_create_state`: grave 1 was DISPONIBLE, after the
successful creation it is OCUPADA and the CONTRATO movement is recorded. -/
theorem c9_create_contract_sets_ocupada_witness :
    (∃ sp ∈ demo_create_state.sepulturas, sp.id = 1 ∧
      sp.estado = SepulturaEstado.DISPONIBLE) ∧
    (∀ sp ∈ demo_created_state.sepulturas, sp.id = 1 →
      sp.estado = SepulturaEstado.OCUPADA) ∧
    ⟨1, MovimientoTipo.CONTRATO⟩ ∈ demo_created_state.movimientos :=
  c9_create_contract_sets_ocupada.2 demo_create_state 1 demo_create_payload
    demo_created_contract demo_created_state rfl

/-- Mapping a function that never turns a non-selected element into a
selected one cannot increase a filter count. -/
theorem length_filter_map_le {α : Type} (l : List α) (f : α → α) (p : α → Bool)
    (hf : ∀ x, p (f x) = true → p x = true) :
    ((l.map f).filter p).length ≤ (l.filter p).length := by
  induction l with
  | nil => exact Nat.le_refl 0
  | cons x l ih =>
    simp only [List.map_cons, List.filter_cons]
    by_cases hx : p (f x) = true
    · rw [if_pos hx, if_pos (hf x hx)]
      simpa using ih
    · rw [if_neg hx]
      split
      · exact Nat.le_succ_of_le ih
      · exact ih

/-- Closing a titular row by id never increases the open-row count of any
contract. -/
theorem map_close_titular_filter_le (l : List OwnershipRecord) (i : Nat)
    (today : Date) (cid : Nat) :
    ((l.map (fun r => if r.id = i then { r with end_date := some today }
        else r)).filter
      (fun r => decide (r.contract_id = cid ∧ r.end_date = none))).length ≤
    (l.filter (fun r =>
      decide (r.contract_id = cid ∧ r.end_date = none))).length := by
  apply length_filter_map_le
  intro x hx
  by_cases hid : x.id = i
  · rw [if_pos hid] at hx
    simp at hx
  · rwa [if_neg hid] at hx

/-- Closing a beneficiary row by id never increases the open-row count of
any contract. -/
theorem map_close_beneficiario_filter_le (l : List Beneficiario) (i : Nat)
    (today : Date) (cid : Nat) :
    ((l.map (fun b => if b.id = i then { b with activo_hasta := some today }
        else b)).filter
      (fun b => decide (b.contrato_id = cid ∧ b.activo_hasta = none))).length ≤
    (l.filter (fun b =>
      decide (b.contrato_id = cid ∧ b.activo_hasta = none))).length := by
  apply length_filter_map_le
  intro x hx
  by_cases hid : x.id = i
  · rw [if_pos hid] at hx
    simp at hx
  · rwa [if_neg hid] at hx

/-- If the single open titular row of a contract is closed by id, no open
row of that contract remains. -/
theorem map_close_titular_filter_nil (l : List OwnershipRecord)
    (po : OwnershipRecord) (cid : Nat) (today : Date)
    (hfl : l.filter (fun r =>
      decide (r.contract_id = cid ∧ r.end_date = none)) = [po]) :
    (l.map (fun r => if r.id = po.id then { r with end_date := some today }
        else r)).filter
      (fun r => decide (r.contract_id = cid ∧ r.end_date = none)) = [] := by
  rw [List.filter_eq_nil_iff]
  intro y hy
  obtain ⟨r, hr, hfr⟩ := List.mem_map.mp hy
  by_cases hid : r.id = po.id
  · rw [if_pos hid] at hfr
    subst hfr
    simp
  · rw [if_neg hid] at hfr
    subst hfr
    intro hp
    have hmem : r ∈ l.filter (fun r =>
        decide (r.contract_id = cid ∧ r.end_date = none)) :=
      List.mem_filter.mpr ⟨hr, hp⟩
    rw [hfl, List.mem_singleton] at hmem
    exact hid (by rw [hmem])

/-- If the single open beneficiary row of a contract is closed by id, no
open row of that contract remains. -/
theorem map_close_beneficiario_filter_nil (l : List Beneficiario)
    (ab : Beneficiario) (cid : Nat) (today : Date)
    (hfl : l.filter (fun b =>
      decide (b.contrato_id = cid ∧ b.activo_hasta = none)) = [ab]) :
    (l.map (fun b => if b.id = ab.id then { b with activo_hasta := some today }
        else b)).filter
      (fun b => decide (b.contrato_id = cid ∧ b.activo_hasta = none)) = [] := by
  rw [List.filter_eq_nil_iff]
  intro y hy
  obtain ⟨b, hb, hfb⟩ := List.mem_map.mp hy
  by_cases hid : b.id = ab.id
  · rw [if_pos hid] at hfb
    subst hfb
    simp
  · rw [if_neg hid] at hfb
    subst hfb
    intro hp
    have hmem : b ∈ l.filter (fun b =>
        decide (b.contrato_id = cid ∧ b.activo_hasta = none)) :=
      List.mem_filter.mpr ⟨hb, hp⟩
    rw [hfl, List.mem_singleton] at hmem
    exact hid (by rw [hmem])

/-- When every closed titular row ended strictly before today, the
"currently active" query sees exactly the open rows: it returns none iff
the contract has no open row, and otherwise the single open row. -/
theorem active_titular_cases (s : DBState) (today : Date) (cid : Nat)
    (hclosed : ∀ r ∈ s.ownership_records, ∀ d, r.end_date = some d →
      Date.lt d today = true)
    (hle1 : (open_titular_rows s cid).length ≤ 1) :
    (active_titular_for_contract s today cid = none ∧
      open_titular_rows s cid = []) ∨
    (∃ po, active_titular_for_contract s today cid = some po ∧
      open_titular_rows s cid = [po]) := by
  have hfe : s.ownership_records.filter (fun r =>
      decide (r.contract_id = cid) &&
        (match r.end_date with | none => true | some d => Date.le today d)) =
      open_titular_rows s cid := by
    unfold open_titular_rows
    apply List.filter_congr
    intro r hr
    cases he : r.end_date with
    | none => simp [he]
    | some d =>
      have hnle := Date.not_le_of_lt (hclosed r hr d he)
      simp [he, hnle]
  unfold active_titular_for_contract
  rw [hfe]
  cases hol : open_titular_rows s cid with
  | nil => exact Or.inl ⟨rfl, rfl⟩
  | cons po tl =>
    rw [hol] at hle1
    simp only [List.length_cons] at hle1
    have htl : tl = [] := List.length_eq_zero.mp (by omega)
    subst htl
    exact Or.inr ⟨po, rfl, rfl⟩

/-- When every closed beneficiary row ended strictly before today, the
"currently active" query sees exactly the open rows. -/
theorem active_beneficiario_cases (s : DBState) (today : Date) (cid : Nat)
    (hclosed : ∀ b ∈ s.beneficiarios, ∀ d, b.activo_hasta = some d →
      Date.lt d today = true)
    (hle1 : (open_beneficiario_rows s cid).length ≤ 1) :
    (active_beneficiario_for_contract s today cid = none ∧
      open_beneficiario_rows s cid = []) ∨
    (∃ ab, active_beneficiario_for_contract s today cid = some ab ∧
      open_beneficiario_rows s cid = [ab]) := by
  have hfe : s.beneficiarios.filter (fun b =>
      decide (b.contrato_id = cid) &&
        (match b.activo_hasta with | none => true | some d => Date.le today d)) =
      open_beneficiario_rows s cid := by
    unfold open_beneficiario_rows
    apply List.filter_congr
    intro b hb
    cases he : b.activo_hasta with
    | none => simp [he]
    | some d =>
      have hnle := Date.not_le_of_lt (hclosed b hb d he)
      simp [he, hnle]
  unfold active_beneficiario_for_contract
  rw [hfe]
  cases hol : open_beneficiario_rows s cid with
  | nil => exact Or.inl ⟨rfl, rfl⟩
  | cons ab tl =>
    rw [hol] at hle1
    simp only [List.length_cons] at hle1
    have htl : tl = [] := List.length_eq_zero.mp (by omega)
    subst htl
    exact Or.inr ⟨ab, rfl, rfl⟩

/-- The beneficiary query reads only the beneficiary table. -/
theorem active_beneficiario_congr (s1 s2 : DBState) (today : Date) (cid : Nat)
    (h : s1.beneficiarios = s2.beneficiarios) :
    active_beneficiario_for_contract s1 today cid =
      active_beneficiario_for_contract s2 today cid := by
  unfold active_beneficiario_for_contract
  rw [h]

/-- Row effect of a successful `nominate_contract_beneficiary`: titular rows
are untouched, and the beneficiary table is either unchanged (re-nominating
the active beneficiary) or gets one new open row after the active row (as
seen by the query on the pre-state) has been closed by id. -/
theorem nominate_rows_spec (s : DBState) (contract_id : Nat)
    (payload : NominatePayload) (today : Date) (nb : Beneficiario) (s' : DBState)
    (h : nominate_contract_beneficiary s contract_id payload today = .ok (nb, s')) :
    s'.ownership_records = s.ownership_records ∧
    (s'.beneficiarios = s.beneficiarios ∨
     ∃ (cid : Nat) (newb : Beneficiario), newb.contrato_id = cid ∧
       newb.activo_hasta = none ∧
       ((active_beneficiario_for_contract s today cid = none ∧
         s'.beneficiarios = s.beneficiarios ++ [newb]) ∨
        (∃ ab, active_beneficiario_for_contract s today cid = some ab ∧
          s'.beneficiarios = (s.beneficiarios.map (fun x =>
            if x.id = ab.id then { x with activo_hasta := some today }
            else x)) ++ [newb]))) := by
  simp only [nominate_contract_beneficiary] at h
  split at h
  · exact absurd h (by simp)
  · rename_i contrato hct
    split at h
    · exact absurd h (by simp)
    · rename_i person smid hres
      have hframe : smid.ownership_records = s.ownership_records ∧
          smid.beneficiarios = s.beneficiarios := by
        split at hres
        · cases hp : person_by_org s _ with
          | error e =>
            rw [hp] at hres
            exact absurd hres (by simp [Except.map])
          | ok q =>
            rw [hp] at hres
            simp only [Except.map, Except.ok.injEq, Prod.mk.injEq] at hres
            rw [← hres.2]
            exact ⟨rfl, rfl⟩
        · split at hres
          · exact absurd hres (by simp)
          · obtain ⟨-, h2, h3, -, -, -, -, -⟩ :=
              create_or_reuse_person_frame _ _ _ _ _ _ hres
            exact ⟨h2, h3⟩
      obtain ⟨hown, hben⟩ := hframe
      split at h
      · rename_i active hasome
        have hacts : active_beneficiario_for_contract s today contrato.id =
            some active := by
          rw [← active_beneficiario_congr smid s today contrato.id hben]
          exact hasome
        split at h
        · rw [Except.ok.injEq, Prod.mk.injEq] at h
          rw [← h.2]
          exact ⟨hown, Or.inl hben⟩
        · rw [Except.ok.injEq, Prod.mk.injEq] at h
          rw [← h.2]
          refine ⟨hown, Or.inr ⟨contrato.id,
            ⟨smid.next_id, contrato.id, person.id, today, none⟩, rfl, rfl,
            Or.inr ⟨active, hacts, ?_⟩⟩⟩
          exact congrArg (fun l => l.map (fun x =>
            if x.id = active.id then { x with activo_hasta := some today }
            else x) ++
            [(⟨smid.next_id, contrato.id, person.id, today, none⟩ :
              Beneficiario)]) hben
      · rename_i hanone
        have hacts : active_beneficiario_for_contract s today contrato.id =
            none := by
          rw [← active_beneficiario_congr smid s today contrato.id hben]
          exact hanone
        rw [Except.ok.injEq, Prod.mk.injEq] at h
        rw [← h.2]
        refine ⟨hown, Or.inr ⟨contrato.id,
          ⟨smid.next_id, contrato.id, person.id, today, none⟩, rfl, rfl,
          Or.inl ⟨hacts, ?_⟩⟩⟩
        exact congrArg (fun l => l ++
          [(⟨smid.next_id, contrato.id, person.id, today, none⟩ :
            Beneficiario)]) hben

/-- What the titular-closing step does to the ownership table: nothing when
no active row is found, otherwise it closes the returned row by id. -/
theorem close_titular_records_owner (s : DBState) (c : OwnershipTransferCase)
    (today : Date) :
    (active_titular_for_contract s today c.contract_id = none ∧
      (close_titular_records s c today).ownership_records =
        s.ownership_records) ∨
    (∃ po, active_titular_for_contract s today c.contract_id = some po ∧
      (close_titular_records s c today).ownership_records =
        s.ownership_records.map (fun r =>
          if r.id = po.id then { r with end_date := some today } else r)) := by
  unfold close_titular_records
  cases hat : active_titular_for_contract s today c.contract_id with
  | none => exact Or.inl ⟨rfl, rfl⟩
  | some po => exact Or.inr ⟨po, rfl, rfl⟩

/-- Row effect of a successful `close_ownership_case` on the ownership and
beneficiary tables: the active titular row (as seen by the query on the
pre-state, if any) is closed by id and one new open titular row for the
case's contract is appended; the beneficiary table is unchanged (empty or
KEEP decision) or gets one new open row after the active beneficiary row
has been closed by id (REPLACE decision). -/
theorem close_ownership_rows_spec (s : DBState) (case_id : Nat)
    (payload : ClosePayload) (today : Date) (s' : DBState)
    (h : close_ownership_case s case_id payload today = .ok s') :
    ∃ (cid : Nat) (tit : List OwnershipRecord),
      ((active_titular_for_contract s today cid = none ∧
        tit = s.ownership_records) ∨
       (∃ po, active_titular_for_contract s today cid = some po ∧
         tit = s.ownership_records.map (fun r =>
           if r.id = po.id then { r with end_date := some today } else r))) ∧
      (∃ newrec : OwnershipRecord, newrec.contract_id = cid ∧
        newrec.end_date = none ∧ s'.ownership_records = tit ++ [newrec]) ∧
      (s'.beneficiarios = s.beneficiarios ∨
       ∃ (newb : Beneficiario), newb.contrato_id = cid ∧
         newb.activo_hasta = none ∧
         ((active_beneficiario_for_contract s today cid = none ∧
           s'.beneficiarios = s.beneficiarios ++ [newb]) ∨
          (∃ ab, active_beneficiario_for_contract s today cid = some ab ∧
            s'.beneficiarios = (s.beneficiarios.map (fun x =>
              if x.id = ab.id then { x with activo_hasta := some today }
              else x)) ++ [newb]))) := by
  unfold close_ownership_case at h
  split at h
  · exact absurd h (by simp)
  · split at h
    · exact absurd h (by simp)
    · split at h
      · exact absurd h (by simp)
      · split at h
        · exact absurd h (by simp)
        · rename_i c2 htr
          simp only [close_apply] at h
          split at h
          · exact absurd h (by simp)
          · rename_i now hparty
            have hben2 : (close_insert_record (close_titular_records s c2 today)
                c2 now payload today).beneficiarios = s.beneficiarios :=
              (close_titular_records_frame s c2 today).2.1
            have hoc := close_titular_records_owner s c2 today
            have htit2 : ∀ tit,
                (close_titular_records s c2 today).ownership_records = tit →
                ∃ newrec : OwnershipRecord, newrec.contract_id = c2.contract_id ∧
                  newrec.end_date = none ∧
                  (close_insert_record (close_titular_records s c2 today)
                    c2 now payload today).ownership_records = tit ++ [newrec] := by
              intro tit htit
              refine ⟨close_new_record (close_titular_records s c2 today) c2
                now payload today, rfl, rfl, ?_⟩
              rw [← htit]
              rfl
            have hact2 : active_beneficiario_for_contract
                (close_insert_record (close_titular_records s c2 today)
                  c2 now payload today) today c2.contract_id =
                active_beneficiario_for_contract s today c2.contract_id :=
              active_beneficiario_congr _ _ _ _ hben2
            have hmain : ∀ (hbens : List Beneficiario),
                s'.ownership_records =
                  (close_insert_record (close_titular_records s c2 today)
                    c2 now payload today).ownership_records →
                s'.beneficiarios = hbens →
                hbens = s.beneficiarios ∨
                  (∃ (newb : Beneficiario), newb.contrato_id = c2.contract_id ∧
                    newb.activo_hasta = none ∧
                    ((active_beneficiario_for_contract s today c2.contract_id =
                        none ∧ hbens = s.beneficiarios ++ [newb]) ∨
                     (∃ ab, active_beneficiario_for_contract s today
                         c2.contract_id = some ab ∧
                       hbens = (s.beneficiarios.map (fun x =>
                         if x.id = ab.id then { x with activo_hasta := some today }
                         else x)) ++ [newb]))) →
                ∃ (cid : Nat) (tit : List OwnershipRecord),
                  ((active_titular_for_contract s today cid = none ∧
                    tit = s.ownership_records) ∨
                   (∃ po, active_titular_for_contract s today cid = some po ∧
                     tit = s.ownership_records.map (fun r =>
                       if r.id = po.id then { r with end_date := some today }
                       else r))) ∧
                  (∃ newrec : OwnershipRecord, newrec.contract_id = cid ∧
                    newrec.end_date = none ∧
                    s'.ownership_records = tit ++ [newrec]) ∧
                  (s'.beneficiarios = s.beneficiarios ∨
                   ∃ (newb : Beneficiario), newb.contrato_id = cid ∧
                     newb.activo_hasta = none ∧
                     ((active_beneficiario_for_contract s today cid = none ∧
                       s'.beneficiarios = s.beneficiarios ++ [newb]) ∨
                      (∃ ab, active_beneficiario_for_contract s today cid =
                          some ab ∧
                        s'.beneficiarios = (s.beneficiarios.map (fun x =>
                          if x.id = ab.id then
                            { x with activo_hasta := some today }
                          else x)) ++ [newb]))) := by
              intro hbens hso hsb hcases
              cases hoc with
              | inl hnone =>
                obtain ⟨newrec, hnc, hne, hnr⟩ :=
                  htit2 s.ownership_records hnone.2
                refine ⟨c2.contract_id, s.ownership_records,
                  Or.inl ⟨hnone.1, rfl⟩,
                  ⟨newrec, hnc, hne, by rw [hso, hnr]⟩, ?_⟩
                rw [hsb]
                exact hcases
              | inr hsome =>
                obtain ⟨po, hpo, hmap⟩ := hsome
                obtain ⟨newrec, hnc, hne, hnr⟩ := htit2 _ hmap
                refine ⟨c2.contract_id, _, Or.inr ⟨po, hpo, rfl⟩,
                  ⟨newrec, hnc, hne, by rw [hso, hnr]⟩, ?_⟩
                rw [hsb]
                exact hcases
            split at h
            · exact absurd h (by simp)
            · split at h
              · obtain ⟨c', contract, -, -, -, -, hofin, hbfin, -, -, -⟩ :=
                  close_finish_spec _ _ _ _ h
                exact hmain s.beneficiarios hofin (hbfin.trans hben2)
                  (Or.inl rfl)
              · split at h
                · exact absurd h (by simp)
                · rename_i decision hdec
                  split at h
                  · split at h
                    · exact absurd h (by simp)
                    · rename_i p s3 hres
                      obtain ⟨-, hro, hrb, -, -⟩ :=
                        close_resolve_beneficiary_person_frame _ _ _ _ hres
                      obtain ⟨c', contract, -, -, -, -, hofin, hbfin, -, -, -⟩ :=
                        close_finish_spec _ _ _ _ h
                      rw [hact2] at hbfin
                      have hs3b : s3.beneficiarios = s.beneficiarios :=
                        hrb.trans hben2
                      have hro2 : s'.ownership_records =
                          (close_insert_record (close_titular_records s c2 today)
                            c2 now payload today).ownership_records := by
                        rw [hofin]
                        exact ((close_replace_beneficiary_rows_frame _ _ _ _
                          _).2.1).trans hro
                      cases hab : active_beneficiario_for_contract s today
                          c2.contract_id with
                      | none =>
                        rw [hab] at hbfin
                        refine hmain _ hro2 hbfin (Or.inr
                          ⟨⟨s3.next_id, c2.contract_id, p.id, today, none⟩,
                            rfl, rfl, Or.inl ⟨hab, ?_⟩⟩)
                        exact (congrArg (fun l => l ++
                          [(⟨s3.next_id, c2.contract_id, p.id, today, none⟩ :
                            Beneficiario)]) hs3b)
                      | some ab =>
                        rw [hab] at hbfin
                        refine hmain _ hro2 hbfin (Or.inr
                          ⟨⟨s3.next_id, c2.contract_id, p.id, today, none⟩,
                            rfl, rfl, Or.inr ⟨ab, hab, ?_⟩⟩)
                        exact (congrArg (fun l => l.map (fun x =>
                          if x.id = ab.id then { x with activo_hasta := some today }
                          else x) ++
                          [(⟨s3.next_id, c2.contract_id, p.id, today, none⟩ :
                            Beneficiario)]) hs3b)
                  · obtain ⟨c', contract, -, -, -, -, hofin, hbfin, -, -, -⟩ :=
                      close_finish_spec _ _ _ _ h
                    exact hmain s.beneficiarios hofin (hbfin.trans hben2)
                      (Or.inl rfl)

/-- A successful `_transition_case_status` returns the case with exactly the
status replaced, and the target was allowed. -/
theorem transition_fields (c : OwnershipTransferCase)
    (ns : OwnershipTransferStatus) (c' : OwnershipTransferCase)
    (h : transition_case_status c ns = .ok c') :
    c' = { c with status := ns } ∧ ns ∈ CASE_STATUS_TRANSITIONS c.status := by
  unfold transition_case_status at h
  split at h
  · rename_i hmem
    rw [Except.ok.injEq] at h
    exact ⟨h.symm, hmem⟩
  · exact absurd h (by simp)

/-- Full effect of a successful `close_ownership_case` as needed for the
closing postconditions: the case was found and preloaded, validation
passed, the NUEVO_TITULAR party exists on the validated case, the stored
case becomes CLOSED with `closed_at` today, the active titular row (if any)
is closed with `end_date` today, a new open titular row for the party's
person starts today, and the CAMBIO_TITULARIDAD contract event and
sepultura movement are recorded. -/
theorem close_ownership_c3_spec (s : DBState) (case_id : Nat)
    (payload : ClosePayload) (today : Date) (s' : DBState)
    (h : close_ownership_case s case_id payload today = .ok s') :
    ∃ (c c1 : OwnershipTransferCase) (party : OwnershipTransferParty)
      (tit : List OwnershipRecord),
      get_case_or_404 s case_id = .ok c ∧
      close_preload_new_holder s c today = .ok c1 ∧
      validate_case_ready_to_close c1 payload = .ok () ∧
      case_party c1 OwnershipPartyRole.NUEVO_TITULAR = some party ∧
      case_status_in s' case_id = some OwnershipTransferStatus.CLOSED ∧
      (∃ cc, s'.cases.find? (fun x => decide (x.id = case_id)) = some cc ∧
        cc.closed_at = some today) ∧
      ((active_titular_for_contract s today c.contract_id = none ∧
        tit = s.ownership_records) ∨
       (∃ po, active_titular_for_contract s today c.contract_id = some po ∧
         po ∈ s.ownership_records ∧
         { po with end_date := some today } ∈ tit ∧
         tit = s.ownership_records.map (fun r =>
           if r.id = po.id then { r with end_date := some today } else r))) ∧
      (∃ newrec : OwnershipRecord, newrec.contract_id = c.contract_id ∧
        newrec.person_id = party.person_id ∧ newrec.start_date = today ∧
        newrec.end_date = none ∧ s'.ownership_records = tit ++ [newrec]) ∧
      ⟨c.contract_id, some c.id, "CAMBIO_TITULARIDAD"⟩ ∈ s'.contract_events ∧
      (∃ contract, s.contratos.find? (fun ct =>
          decide (ct.id = c.contract_id)) = some contract ∧
        ⟨contract.sepultura_id, MovimientoTipo.CAMBIO_TITULARIDAD⟩ ∈
          s'.movimientos) := by
  unfold close_ownership_case at h
  split at h
  · exact absurd h (by simp)
  · rename_i c hget
    split at h
    · exact absurd h (by simp)
    · rename_i c1 hpre
      split at h
      · exact absurd h (by simp)
      · rename_i hvalu
        split at h
        · exact absurd h (by simp)
        · rename_i c2 htr
          obtain ⟨hc2, -⟩ :=
            transition_fields c1 OwnershipTransferStatus.CLOSED c2 htr
          obtain ⟨-, hp2, hp3, -, -, -⟩ := close_preload_fields s c c1 today hpre
          have hfind := get_case_ok_find s case_id c hget
          have hcid : c2.contract_id = c.contract_id := by
            rw [hc2]
            exact hp3
          have hcidid : c2.id = c.id := by
            rw [hc2]
            exact hp2
          have hst : c2.status = OwnershipTransferStatus.CLOSED := by
            rw [hc2]
          obtain ⟨hcs1, cc, hcc1, -, hcc3⟩ :=
            close_apply_cases s c2 payload today s' h case_id c hfind hcidid
          rw [hst] at hcs1
          simp only [close_apply] at h
          split at h
          · exact absurd h (by simp)
          · rename_i now hparty
            have hparty1 : case_party c1 OwnershipPartyRole.NUEVO_TITULAR =
                some now := by
              rw [hc2] at hparty
              exact hparty
            have hoc := close_titular_records_owner s c2 today
            rw [hcid] at hoc
            have hMain : ∀ (smid : DBState) (c4 : OwnershipTransferCase),
                smid.ownership_records =
                  (close_insert_record (close_titular_records s c2 today)
                    c2 now payload today).ownership_records →
                smid.contratos = s.contratos →
                smid.contract_events = s.contract_events →
                c4.contract_id = c2.contract_id →
                c4.id = c2.id →
                close_finish smid c4 today = .ok s' →
                ∃ (tit : List OwnershipRecord),
                  ((active_titular_for_contract s today c.contract_id = none ∧
                    tit = s.ownership_records) ∨
                   (∃ po, active_titular_for_contract s today c.contract_id =
                       some po ∧
                     po ∈ s.ownership_records ∧
                     { po with end_date := some today } ∈ tit ∧
                     tit = s.ownership_records.map (fun r =>
                       if r.id = po.id then { r with end_date := some today }
                       else r))) ∧
                  (∃ newrec : OwnershipRecord,
                    newrec.contract_id = c.contract_id ∧
                    newrec.person_id = now.person_id ∧
                    newrec.start_date = today ∧ newrec.end_date = none ∧
                    s'.ownership_records = tit ++ [newrec]) ∧
                  ⟨c.contract_id, some c.id, "CAMBIO_TITULARIDAD"⟩ ∈
                    s'.contract_events ∧
                  (∃ contract, s.contratos.find? (fun ct =>
                      decide (ct.id = c.contract_id)) = some contract ∧
                    ⟨contract.sepultura_id,
                      MovimientoTipo.CAMBIO_TITULARIDAD⟩ ∈ s'.movimientos) := by
              intro smid c4 hsoo hscon hsev h4c h4id hfin
              obtain ⟨c', contract, -, -, -, -, hofin, -, hfound, hmv, hev⟩ :=
                close_finish_spec smid c4 today s' hfin
              have hc4c : c4.contract_id = c.contract_id := h4c.trans hcid
              have hc4id : c4.id = c.id := h4id.trans hcidid
              have hfound2 : s.contratos.find? (fun ct =>
                  decide (ct.id = c.contract_id)) = some contract := by
                rw [← hc4c, ← hscon]
                exact hfound
              have hevm : (⟨c.contract_id, some c.id, "CAMBIO_TITULARIDAD"⟩ :
                  ContractEvent) ∈ s'.contract_events := by
                rw [hev, hsev]
                have he : (⟨c.contract_id, some c.id, "CAMBIO_TITULARIDAD"⟩ :
                    ContractEvent) =
                    ⟨c4.contract_id, some c4.id, "CAMBIO_TITULARIDAD"⟩ := by
                  rw [hc4c, hc4id]
                rw [he]
                exact List.mem_append_right _ (List.mem_singleton.mpr rfl)
              have hmvm : (⟨contract.sepultura_id,
                  MovimientoTipo.CAMBIO_TITULARIDAD⟩ : MovimientoSepultura) ∈
                  s'.movimientos := by
                rw [hmv]
                exact List.mem_append_right _ (List.mem_singleton.mpr rfl)
              have hso2 : s'.ownership_records =
                  (close_insert_record (close_titular_records s c2 today)
                    c2 now payload today).ownership_records :=
                hofin.trans hsoo
              cases hoc with
              | inl hnone =>
                refine ⟨s.ownership_records, Or.inl ⟨hnone.1, rfl⟩,
                  ⟨close_new_record (close_titular_records s c2 today) c2
                    now payload today, hcid, rfl, rfl, rfl, ?_⟩,
                  hevm, ⟨contract, hfound2, hmvm⟩⟩
                rw [hso2, ← hnone.2]
                rfl
              | inr hsome =>
                obtain ⟨po, hpo, hmap⟩ := hsome
                have hpomem : po ∈ s.ownership_records := by
                  unfold active_titular_for_contract at hpo
                  have h1 := List.mem_of_mem_head? (Option.mem_def.mpr hpo)
                  have h2 := (List.perm_insertionSort _ _).mem_iff.mp h1
                  exact (List.mem_filter.mp h2).1
                have hclm : ({ po with end_date := some today } :
                    OwnershipRecord) ∈ s.ownership_records.map (fun r =>
                      if r.id = po.id then { r with end_date := some today }
                      else r) := by
                  have hmm := List.mem_map_of_mem (fun r =>
                    if r.id = po.id then
                      ({ r with end_date := some today } : OwnershipRecord)
                    else r) hpomem
                  have hmm2 : (if po.id = po.id then
                      ({ po with end_date := some today } : OwnershipRecord)
                    else po) = { po with end_date := some today } := if_pos rfl
                  have hmm3 : (if po.id = po.id then
                      ({ po with end_date := some today } : OwnershipRecord)
                    else po) ∈ s.ownership_records.map (fun r =>
                      if r.id = po.id then { r with end_date := some today }
                      else r) := hmm
                  rwa [hmm2] at hmm3
                refine ⟨_, Or.inr ⟨po, hpo, hpomem, hclm, rfl⟩,
                  ⟨close_new_record (close_titular_records s c2 today) c2
                    now payload today, hcid, rfl, rfl, rfl, ?_⟩,
                  hevm, ⟨contract, hfound2, hmvm⟩⟩
                rw [hso2, ← hmap]
                rfl
            split at h
            · exact absurd h (by simp)
            · split at h
              · obtain ⟨tit, hA, hB, hC, hD⟩ := hMain _ c2 rfl
                  ((close_titular_records_frame s c2 today).2.2.1)
                  ((close_titular_records_frame s c2 today).2.2.2.2.2)
                  rfl rfl h
                exact ⟨c, c1, now, tit, hget, hpre, hvalu, hparty1, hcs1,
                  ⟨cc, hcc1, hcc3⟩, hA, hB, hC, hD⟩
              · split at h
                · exact absurd h (by simp)
                · rename_i decision hdec
                  split at h
                  · split at h
                    · exact absurd h (by simp)
                    · rename_i p s3 hres
                      obtain ⟨-, hro, -, hrcon, -, -, hrev⟩ :=
                        close_resolve_beneficiary_person_frame _ _ _ _ hres
                      obtain ⟨tit, hA, hB, hC, hD⟩ := hMain _
                        ({ c2 with beneficiary_close_decision := some decision })
                        (((close_replace_beneficiary_rows_frame _ _ _ _
                          _).2.1).trans hro)
                        (((close_replace_beneficiary_rows_frame _ _ _ _
                          _).2.2.1).trans (hrcon.trans
                          ((close_titular_records_frame s c2 today).2.2.1)))
                        (((close_replace_beneficiary_rows_frame _ _ _ _
                          _).2.2.2.2).trans (hrev.trans
                          ((close_titular_records_frame s c2 today).2.2.2.2.2)))
                        rfl rfl h
                      exact ⟨c, c1, now, tit, hget, hpre, hvalu, hparty1, hcs1,
                        ⟨cc, hcc1, hcc3⟩, hA, hB, hC, hD⟩
                  · obtain ⟨tit, hA, hB, hC, hD⟩ := hMain _
                      ({ c2 with beneficiary_close_decision := some decision })
                      rfl
                      ((close_titular_records_frame s c2 today).2.2.1)
                      ((close_titular_records_frame s c2 today).2.2.2.2.2)
                      rfl rfl h
                    exact ⟨c, c1, now, tit, hget, hpre, hvalu, hparty1, hcs1,
                      ⟨cc, hcc1, hcc3⟩, hA, hB, hC, hD⟩

/-- Close-then-insert preserves the at-most-one-open-titular-row bound:
if the table becomes `tit ++ [newrec]` where `tit` results from closing the
active row (if any) of `newrec`'s contract, every contract still has at most
one open row. -/
theorem open_titular_invariant_step (s : DBState) (today : Date) (cid0 : Nat)
    (tit : List OwnershipRecord) (newrec : OwnershipRecord)
    (hinv : ∀ c, (open_titular_rows s c).length ≤ 1)
    (hclosed : ∀ r ∈ s.ownership_records, ∀ d, r.end_date = some d →
      Date.lt d today = true)
    (hcase : (active_titular_for_contract s today cid0 = none ∧
        tit = s.ownership_records) ∨
      (∃ po, active_titular_for_contract s today cid0 = some po ∧
        tit = s.ownership_records.map (fun r =>
          if r.id = po.id then { r with end_date := some today } else r)))
    (hnc : newrec.contract_id = cid0) (cid : Nat) :
    ((tit ++ [newrec]).filter (fun r =>
      decide (r.contract_id = cid ∧ r.end_date = none))).length ≤ 1 := by
  rw [List.filter_append, List.length_append]
  have hsing : (([newrec] : List OwnershipRecord).filter (fun r =>
      decide (r.contract_id = cid ∧ r.end_date = none))).length ≤ 1 :=
    Nat.le_trans (List.length_filter_le _ _) (Nat.le_refl 1)
  by_cases hc : cid = cid0
  · subst hc
    have htz : (tit.filter (fun r =>
        decide (r.contract_id = cid ∧ r.end_date = none))).length = 0 := by
      cases hcase with
      | inl hn =>
        rcases active_titular_cases s today cid hclosed (hinv cid) with
          ⟨-, hol⟩ | ⟨po, hpo, -⟩
        · rw [hn.2]
          have hfe : s.ownership_records.filter (fun r =>
              decide (r.contract_id = cid ∧ r.end_date = none)) = [] := hol
          rw [hfe]
          rfl
        · rw [hn.1] at hpo
          exact absurd hpo (by simp)
      | inr hs =>
        obtain ⟨po, hpo, htit⟩ := hs
        rcases active_titular_cases s today cid hclosed (hinv cid) with
          ⟨hn, -⟩ | ⟨po', hpo', hol⟩
        · rw [hn] at hpo
          exact absurd hpo (by simp)
        · rw [hpo] at hpo'
          have hpe : po = po' := Option.some.inj hpo'
          rw [← hpe] at hol
          rw [htit, map_close_titular_filter_nil s.ownership_records po cid
            today hol]
          rfl
    rw [htz]
    omega
  · have hz : (([newrec] : List OwnershipRecord).filter (fun r =>
        decide (r.contract_id = cid ∧ r.end_date = none))).length = 0 := by
      have hd : decide (newrec.contract_id = cid ∧ newrec.end_date = none) =
          false := by
        apply decide_eq_false
        rintro ⟨h1, -⟩
        exact hc (by rw [← h1, hnc])
      rw [List.filter_singleton, hd]
      rfl
    rw [hz, Nat.add_zero]
    cases hcase with
    | inl hn =>
      rw [hn.2]
      exact hinv cid
    | inr hs =>
      obtain ⟨po, -, htit⟩ := hs
      rw [htit]
      exact Nat.le_trans (map_close_titular_filter_le _ _ _ _) (hinv cid)

/-- Close-then-insert preserves the at-most-one-open-beneficiary-row
bound. -/
theorem open_beneficiario_invariant_step (s : DBState) (today : Date)
    (cid0 : Nat) (hbens : List Beneficiario) (newb : Beneficiario)
    (hinv : ∀ c, (open_beneficiario_rows s c).length ≤ 1)
    (hclosed : ∀ b ∈ s.beneficiarios, ∀ d, b.activo_hasta = some d →
      Date.lt d today = true)
    (hnc : newb.contrato_id = cid0)
    (hsub : (active_beneficiario_for_contract s today cid0 = none ∧
        hbens = s.beneficiarios ++ [newb]) ∨
      (∃ ab, active_beneficiario_for_contract s today cid0 = some ab ∧
        hbens = (s.beneficiarios.map (fun x =>
          if x.id = ab.id then { x with activo_hasta := some today }
          else x)) ++ [newb]))
    (cid : Nat) :
    (hbens.filter (fun b =>
      decide (b.contrato_id = cid ∧ b.activo_hasta = none))).length ≤ 1 := by
  have hbe : ∃ bmid, hbens = bmid ++ [newb] ∧
      (bmid.filter (fun b =>
        decide (b.contrato_id = cid ∧ b.activo_hasta = none))).length ≤
      (if cid = cid0 then 0 else 1) := by
    by_cases hc : cid = cid0
    · subst hc
      cases hsub with
      | inl hn =>
        refine ⟨s.beneficiarios, hn.2, ?_⟩
        rcases active_beneficiario_cases s today cid hclosed (hinv cid) with
          ⟨-, hol⟩ | ⟨ab, hab, -⟩
        · have hfe : s.beneficiarios.filter (fun b =>
              decide (b.contrato_id = cid ∧ b.activo_hasta = none)) = [] := hol
          rw [hfe, if_pos rfl]
          exact Nat.le_refl 0
        · rw [hn.1] at hab
          exact absurd hab (by simp)
      | inr hs =>
        obtain ⟨ab, hab, hmap⟩ := hs
        refine ⟨_, hmap, ?_⟩
        rcases active_beneficiario_cases s today cid hclosed (hinv cid) with
          ⟨hn, -⟩ | ⟨ab', hab', hol⟩
        · rw [hn] at hab
          exact absurd hab (by simp)
        · rw [hab] at hab'
          have hpe : ab = ab' := Option.some.inj hab'
          rw [← hpe] at hol
          rw [map_close_beneficiario_filter_nil s.beneficiarios ab cid
            today hol, if_pos rfl]
          exact Nat.le_refl 0
    · cases hsub with
      | inl hn =>
        refine ⟨s.beneficiarios, hn.2, ?_⟩
        rw [if_neg hc]
        exact hinv cid
      | inr hs =>
        obtain ⟨ab, -, hmap⟩ := hs
        refine ⟨_, hmap, ?_⟩
        rw [if_neg hc]
        exact Nat.le_trans (map_close_beneficiario_filter_le _ _ _ _) (hinv cid)
  obtain ⟨bmid, hbm, hcount⟩ := hbe
  rw [hbm, List.filter_append, List.length_append]
  have hsing : (([newb] : List Beneficiario).filter (fun b =>
      decide (b.contrato_id = cid ∧ b.activo_hasta = none))).length ≤ 1 :=
    Nat.le_trans (List.length_filter_le _ _) (Nat.le_refl 1)
  by_cases hc : cid = cid0
  · rw [if_pos hc] at hcount
    omega
  · have hz : (([newb] : List Beneficiario).filter (fun b =>
        decide (b.contrato_id = cid ∧ b.activo_hasta = none))).length = 0 := by
      have hd : decide (newb.contrato_id = cid ∧ newb.activo_hasta = none) =
          false := by
        apply decide_eq_false
        rintro ⟨h1, -⟩
        exact hc (by rw [← h1, hnc])
      rw [List.filter_singleton, hd]
      rfl
    rw [if_neg hc] at hcount
    omega

/-- C7: every operation that installs a new holder or beneficiary preserves
the at-most-one-open-row-per-contract invariant.
`create_funeral_right_contract` opens rows only for the freshly allocated
contract id (which no existing row references); and
`nominate_contract_beneficiary` / `close_ownership_case` first set the end
date of the previously open row (located through the active-row query,
which sees exactly the open rows when every earlier closure happened
strictly before today) before appending the new open row. -/
theorem c7_one_open_row_invariant (s : DBState) (today : Date)
    (hinv : one_open_row_per_contract s) :
    (∀ sid payload c s', row_refs_bounded s →
      create_funeral_right_contract s sid payload = .ok (c, s') →
      one_open_row_per_contract s') ∧
    (∀ contract_id payload nb s', rows_closed_before s today →
      nominate_contract_beneficiary s contract_id payload today = .ok (nb, s') →
      one_open_row_per_contract s') ∧
    (∀ case_id payload s', rows_closed_before s today →
      close_ownership_case s case_id payload today = .ok s' →
      one_open_row_per_contract s') := by
  refine ⟨?_, ?_, ?_⟩
  · intro sid payload c s' hrefs h
    obtain ⟨-, -, -, -, -, hnid, ⟨rec, hrec, hrc, hre⟩, ⟨bs, hbs, hbl, hbmem⟩⟩ :=
      create_funeral_right_contract_spec s sid payload c s' h
    intro cid
    constructor
    · show (s'.ownership_records.filter (fun r =>
        decide (r.contract_id = cid ∧ r.end_date = none))).length ≤ 1
      rw [hrec, List.filter_append, List.length_append]
      by_cases hc : cid = c.id
      · have hz : (s.ownership_records.filter (fun r =>
            decide (r.contract_id = cid ∧ r.end_date = none))).length = 0 := by
          rw [List.filter_eq_nil_iff.mpr ?_]
          · rfl
          · intro r hr hp
            rw [decide_eq_true_eq] at hp
            have h1 := hp.1
            have h2 := hrefs.1 r hr
            omega
        have hsing := List.length_filter_le (fun r =>
          decide (r.contract_id = cid ∧ r.end_date = none)) [rec]
        rw [hz]
        simp only [List.length_singleton] at hsing
        omega
      · have hz : (([rec] : List OwnershipRecord).filter (fun r =>
            decide (r.contract_id = cid ∧ r.end_date = none))).length = 0 := by
          have hd : decide (rec.contract_id = cid ∧ rec.end_date = none) =
              false := by
            apply decide_eq_false
            rintro ⟨h1, -⟩
            exact hc (by rw [← h1, hrc])
          rw [List.filter_singleton, hd]
          rfl
        rw [hz, Nat.add_zero]
        exact (hinv cid).1
    · show (s'.beneficiarios.filter (fun b =>
        decide (b.contrato_id = cid ∧ b.activo_hasta = none))).length ≤ 1
      rw [hbs, List.filter_append, List.length_append]
      by_cases hc : cid = c.id
      · have hz : (s.beneficiarios.filter (fun b =>
            decide (b.contrato_id = cid ∧ b.activo_hasta = none))).length = 0 := by
          rw [List.filter_eq_nil_iff.mpr ?_]
          · rfl
          · intro b hb hp
            rw [decide_eq_true_eq] at hp
            have h1 := hp.1
            have h2 := hrefs.2 b hb
            omega
        have hble := Nat.le_trans (List.length_filter_le (fun b =>
          decide (b.contrato_id = cid ∧ b.activo_hasta = none)) bs) hbl
        rw [hz]
        omega
      · have hz : (bs.filter (fun b =>
            decide (b.contrato_id = cid ∧ b.activo_hasta = none))).length = 0 := by
          rw [List.filter_eq_nil_iff.mpr ?_]
          · rfl
          · intro b hb hp
            rw [decide_eq_true_eq] at hp
            exact hc (by rw [← hp.1, (hbmem b hb).1])
        rw [hz, Nat.add_zero]
        exact (hinv cid).2
  · intro contract_id payload nb s' hclosed h
    obtain ⟨hown, hben⟩ := nominate_rows_spec s contract_id payload today nb s' h
    intro cid
    constructor
    · show (s'.ownership_records.filter (fun r =>
        decide (r.contract_id = cid ∧ r.end_date = none))).length ≤ 1
      rw [hown]
      exact (hinv cid).1
    · show (s'.beneficiarios.filter (fun b =>
        decide (b.contrato_id = cid ∧ b.activo_hasta = none))).length ≤ 1
      cases hben with
      | inl he =>
        rw [he]
        exact (hinv cid).2
      | inr hx =>
        obtain ⟨cid0, newb, hnc, -, hsub⟩ := hx
        exact open_beneficiario_invariant_step s today cid0 s'.beneficiarios
          newb (fun c => (hinv c).2) hclosed.2 hnc hsub cid
  · intro case_id payload s' hclosed h
    obtain ⟨cid0, tit, hcase, ⟨newrec, hnc, -, hnr⟩, hbenef⟩ :=
      close_ownership_rows_spec s case_id payload today s' h
    intro cid
    constructor
    · show (s'.ownership_records.filter (fun r =>
        decide (r.contract_id = cid ∧ r.end_date = none))).length ≤ 1
      rw [hnr]
      exact open_titular_invariant_step s today cid0 tit newrec
        (fun c => (hinv c).1) hclosed.1 hcase hnc cid
    · show (s'.beneficiarios.filter (fun b =>
        decide (b.contrato_id = cid ∧ b.activo_hasta = none))).length ≤ 1
      cases hbenef with
      | inl he =>
        rw [he]
        exact (hinv cid).2
      | inr hx =>
        obtain ⟨newb, hnc2, -, hsub⟩ := hx
        exact open_beneficiario_invariant_step s today cid0 s'.beneficiarios
          newb (fun c => (hinv c).2) hclosed.2 hnc2 hsub cid

/-- Witness for C7: the invariant holds after the concrete contract
creation on `demo_create_state` and after the concrete beneficiary
nomination on the resulting state. -/
theorem c7_one_open_row_invariant_witness :
    one_open_row_per_contract demo_created_state ∧
    one_open_row_per_contract demo_nominated_state :=
  ⟨(c7_one_open_row_invariant demo_create_state ⟨2026, 10, 12⟩
      (fun _ => ⟨Nat.zero_le 1, Nat.zero_le 1⟩)).1 1 demo_create_payload
      demo_created_contract demo_created_state
      ⟨fun r hr => absurd hr (List.not_mem_nil r),
       fun b hb => absurd hb (List.not_mem_nil b)⟩ rfl,
   (c7_one_open_row_invariant demo_created_state ⟨2026, 10, 12⟩
      (fun _ => ⟨Nat.le_trans (List.length_filter_le _ _) (Nat.le_refl 1),
        Nat.zero_le 1⟩)).2.1 10 demo_nominate_payload
      ⟨12, 10, 4, ⟨2026, 10, 12⟩, none⟩ demo_nominated_state
      ⟨by
        intro r hr d hd
        rw [show demo_created_state.ownership_records =
          [⟨11, 10, 4, ⟨2024, 1, 1⟩, none, false, none, false, none⟩]
          from rfl, List.mem_singleton] at hr
        subst hr
        exact absurd hd (by simp),
       fun b hb => absurd hb (List.not_mem_nil b)⟩ rfl⟩

/-- A successful `close_preload_new_holder` leaves the loaded case
unchanged: in every non-raising branch the stale `parties` collection is
what the caller keeps working with. -/
theorem close_preload_ok_eq (s : DBState) (c c1 : OwnershipTransferCase)
    (today : Date) (h : close_preload_new_holder s c today = .ok c1) :
    c1 = c := by
  unfold close_preload_new_holder at h
  split at h
  · split at h
    · rw [Except.ok.injEq] at h
      exact h.symm
    · split at h
      · exact absurd h (by simp)
      · rw [Except.ok.injEq] at h
        exact h.symm
  · rw [Except.ok.injEq] at h
    exact h.symm

/-- For a case without a NUEVO_TITULAR party the close validator always
raises (it can reach `.ok` only past the party check). -/
theorem validate_raises_without_party (c : OwnershipTransferCase)
    (payload : ClosePayload)
    (hnone : case_party c OwnershipPartyRole.NUEVO_TITULAR = none) :
    ∃ e, validate_case_ready_to_close c payload = .error e := by
  unfold validate_case_ready_to_close
  split
  · exact ⟨_, rfl⟩
  · split
    · exact ⟨_, rfl⟩
    · rw [hnone]
      exact ⟨_, rfl⟩

/-- C2: `close_ownership_case` raises `ValueError` unless the case status
is APPROVED, every required checklist document is VERIFIED and the case has
a NUEVO_TITULAR party, with the extra PROVISIONAL-publication and
INTER_VIVOS-document gates (an error returns no state in this model, so the
case is then not closed and no ownership change is committed).  The
MORTIS_CAUSA_CON_BENEFICIARIO preload does not weaken the party condition:
its flushed row never reaches the already-loaded `parties` collection the
validator reads, so a case without the party always raises. -/
theorem c2_close_preconditions (s : DBState) (case_id : Nat)
    (payload : ClosePayload) (today : Date) :
    (∀ s', close_ownership_case s case_id payload today = .ok s' →
      ∃ c, get_case_or_404 s case_id = .ok c ∧
        c.status = OwnershipTransferStatus.APPROVED ∧
        (∀ d ∈ c.documents, d.required = true →
          d.status = CaseDocumentStatus.VERIFIED) ∧
        case_party c OwnershipPartyRole.NUEVO_TITULAR ≠ none ∧
        (c.type = OwnershipTransferType.PROVISIONAL →
          c.publications.any (fun p => decide (str_upper p.channel = "BOP")) =
            true ∧
          c.publications.any (fun p => decide (str_upper p.channel ≠ "BOP")) =
            true) ∧
        (c.type = OwnershipTransferType.INTER_VIVOS →
          doc_verified c "ACREDITACION_PARENTESCO_2_GRADO" = true)) ∧
    ∀ c, get_case_or_404 s case_id = .ok c →
      case_party c OwnershipPartyRole.NUEVO_TITULAR = none →
      raisesValueError (close_ownership_case s case_id payload today) =
        true := by
  constructor
  · intro s' h
    obtain ⟨c, c1, party, -, hget, hpre, hvalu, hparty1, -, -, -, -, -, -⟩ :=
      close_ownership_c3_spec s case_id payload today s' h
    have hc1 : c1 = c := close_preload_ok_eq s c c1 today hpre
    subst hc1
    unfold validate_case_ready_to_close at hvalu
    split at hvalu
    · exact absurd hvalu (by simp)
    · rename_i hv1
      split at hvalu
      · exact absurd hvalu (by simp)
      · rename_i hv2
        split at hvalu
        · exact absurd hvalu (by simp)
        · split at hvalu
          · exact absurd hvalu (by simp)
          · rename_i hv4
            split at hvalu
            · exact absurd hvalu (by simp)
            · split at hvalu
              · exact absurd hvalu (by simp)
              · rename_i hv6
                refine ⟨c1, hget, not_not.mp hv1, ?_, ?_, ?_, ?_⟩
                · intro d hd hreq
                  have hany : c1.documents.any (fun d =>
                      d.required &&
                        decide (d.status ≠ CaseDocumentStatus.VERIFIED)) =
                      false := eq_false_of_ne_true hv2
                  rw [List.any_eq_false] at hany
                  have hone := hany d hd
                  by_contra hne
                  exact hone (by
                    rw [Bool.and_eq_true]
                    exact ⟨hreq, decide_eq_true hne⟩)
                · rw [hparty1]
                  simp
                · intro htype
                  by_contra hno
                  exact hv4 ⟨htype, hno⟩
                · intro htype
                  by_contra hno
                  exact hv6 ⟨htype, hno⟩
  · intro c hget hnone
    obtain ⟨e, hval⟩ := validate_raises_without_party c payload hnone
    unfold close_ownership_case
    rw [hget]
    dsimp only
    cases hp : close_preload_new_holder s c today with
    | error e2 => rfl
    | ok c1 =>
      have hc1 : c1 = c := close_preload_ok_eq s c c1 today hp
      subst hc1
      dsimp only
      rw [hval]
      rfl

/-- Witness for C2 at concrete inputs: the APPROVED MORTIS case without a
NUEVO_TITULAR party raises (the preloaded row is invisible to the loaded
collection), and the same case with the party informed closes, so applying
the theorem to that successful run yields the preconditions. -/
theorem c2_close_preconditions_witness :
    raisesValueError (close_ownership_case demo_mortis_state 5
      demo_close_payload ⟨2026, 10, 12⟩) = true ∧
    demo_mortis_party_case.status = OwnershipTransferStatus.APPROVED ∧
    case_party demo_mortis_party_case OwnershipPartyRole.NUEVO_TITULAR ≠
      none := by
  refine ⟨(c2_close_preconditions demo_mortis_state 5 demo_close_payload
    ⟨2026, 10, 12⟩).2 demo_mortis_case rfl rfl, ?_⟩
  obtain ⟨c, hget, h1, -, h3, -, -⟩ :=
    (c2_close_preconditions demo_mortis_party_state 5 demo_close_payload
      ⟨2026, 10, 12⟩).1 demo_mortis_closed_state rfl
  have hc : c = demo_mortis_party_case := by
    have hg : get_case_or_404 demo_mortis_party_state 5 =
        .ok demo_mortis_party_case := rfl
    exact (Except.ok.inj (hg.symm.trans hget)).symm
  rw [hc] at h1 h3
  exact ⟨h1, h3⟩

/-- C3: when `close_ownership_case` succeeds, the previously active titular
row of the case's contract (the row the active-titular query returns, if
any) gets `end_date` set to today, a new ownership row for the
NUEVO_TITULAR party's person is appended with `start_date` today and no
end date, the stored case becomes CLOSED with `closed_at` today, and a
CAMBIO_TITULARIDAD contract event and sepultura movement are recorded for
the contract. -/
theorem c3_close_postconditions (s : DBState) (case_id : Nat)
    (payload : ClosePayload) (today : Date) (s' : DBState)
    (h : close_ownership_case s case_id payload today = .ok s') :
    ∃ (c c1 : OwnershipTransferCase) (party : OwnershipTransferParty)
      (tit : List OwnershipRecord),
      get_case_or_404 s case_id = .ok c ∧
      close_preload_new_holder s c today = .ok c1 ∧
      case_party c1 OwnershipPartyRole.NUEVO_TITULAR = some party ∧
      case_status_in s' case_id = some OwnershipTransferStatus.CLOSED ∧
      (∃ cc, s'.cases.find? (fun x => decide (x.id = case_id)) = some cc ∧
        cc.closed_at = some today) ∧
      ((active_titular_for_contract s today c.contract_id = none ∧
        tit = s.ownership_records) ∨
       (∃ po, active_titular_for_contract s today c.contract_id = some po ∧
         po ∈ s.ownership_records ∧
         { po with end_date := some today } ∈ tit ∧
         tit = s.ownership_records.map (fun r =>
           if r.id = po.id then { r with end_date := some today } else r))) ∧
      (∃ newrec : OwnershipRecord, newrec.contract_id = c.contract_id ∧
        newrec.person_id = party.person_id ∧ newrec.start_date = today ∧
        newrec.end_date = none ∧ s'.ownership_records = tit ++ [newrec]) ∧
      ⟨c.contract_id, some c.id, "CAMBIO_TITULARIDAD"⟩ ∈ s'.contract_events ∧
      (∃ contract, s.contratos.find? (fun ct =>
          decide (ct.id = c.contract_id)) = some contract ∧
        ⟨contract.sepultura_id, MovimientoTipo.CAMBIO_TITULARIDAD⟩ ∈
          s'.movimientos) := by
  obtain ⟨c, c1, party, tit, hget, hpre, -, hparty, h5, h6, h7, h8, h9, h10⟩ :=
    close_ownership_c3_spec s case_id payload today s' h
  exact ⟨c, c1, party, tit, hget, hpre, hparty, h5, h6, h7, h8, h9, h10⟩

/-- Witness for C3 at the concrete MORTIS close: the stored case is CLOSED
and the CAMBIO_TITULARIDAD contract event was recorded. -/
theorem c3_close_postconditions_witness :
    case_status_in demo_mortis_closed_state 5 =
      some OwnershipTransferStatus.CLOSED ∧
    (⟨2, some 5, "CAMBIO_TITULARIDAD"⟩ : ContractEvent) ∈
      demo_mortis_closed_state.contract_events := by
  obtain ⟨c, c1, party, tit, hget, -, -, h5, -, -, -, h9, -⟩ :=
    c3_close_postconditions demo_mortis_party_state 5 demo_close_payload
      ⟨2026, 10, 12⟩ demo_mortis_closed_state rfl
  have hc : c = demo_mortis_party_case := by
    have hg : get_case_or_404 demo_mortis_party_state 5 =
        .ok demo_mortis_party_case := rfl
    exact (Except.ok.inj (hg.symm.trans hget)).symm
  refine ⟨h5, ?_⟩
  rw [hc] at h9
  exact h9

end Cementerio
